import Mathlib

/-!
The Agency Hub: authentication core.

A shallow embedding of the authentication code of the backend
(`Backend/src/middleware/auth.js`, `Backend/src/models/User.js`,
`Backend/src/routes/auth.js`) and the properties proved about it.

Conventions of the embedding

* A JavaScript string is a Lean `String`; the regular expressions of the code
  are character-class tests on its characters. `length` counts UTF-16 code
  units, as JavaScript does.
* Instants are milliseconds since the epoch, as `Nat`. One request reads the
  clock once.
* Library calls whose code is outside the repository (`jwt.verify`,
  `jwt.sign`, `bcrypt.compare`, the Mongoose queries) are parameters of the
  functions that call them.
* The login route has no handler for a rejected store call, and the store is
  taken to answer its calls, except in `loginHandlerOn`, which follows the
  handler on a store that may reject an update; the auth middleware, the
  refresh route and the signup route do handle a rejected call (`.catch`,
  `catch`), and there the rejection is part of the model.
-/

namespace AgencyHub

/-! ## JavaScript values -/

/-- A JSON-like JavaScript value, as found in a request body or in the claims
of a token. `obj` stands for an object or array and carries the text that
`String(·)` gives for it. `num` holds an integer of magnitude below `1e21`,
the range in which `String(·)` prints every digit; fractions and larger
magnitudes are outside the model. -/
inductive JSVal where
  | undefined
  | null
  | bool (b : Bool)
  | num (n : Int)
  | str (s : String)
  | obj (text : String)
  deriving DecidableEq, Repr

namespace JSVal

/-- Truthiness of a value, as `if (v)`, `!v`, `v || w` read it. -/
def truthy : JSVal → Bool
  | undefined => false
  | null => false
  | bool b => b
  | num n => decide (n ≠ 0)
  | str s => decide (s ≠ "")
  | obj _ => true

/-- The JavaScript `a || b`. -/
def or (a b : JSVal) : JSVal := if a.truthy then a else b

/-- The JavaScript `a ?? b`. -/
def nullish (a b : JSVal) : JSVal :=
  match a with
  | undefined => b
  | null => b
  | v => v

/-- The JavaScript `String(v)`. -/
def toStr : JSVal → String
  | undefined => "undefined"
  | null => "null"
  | bool true => "true"
  | bool false => "false"
  | num n => toString n
  | str s => s
  | obj text => text

end JSVal

/-! ## Character classes of the regular expressions -/

/-- Class `[a-z]`. -/
def isLowerAZ (c : Char) : Bool := decide (97 ≤ c.toNat ∧ c.toNat ≤ 122)

/-- Class `[A-Z]`. -/
def isUpperAZ (c : Char) : Bool := decide (65 ≤ c.toNat ∧ c.toNat ≤ 90)

/-- Class `\d`, the ten ASCII digits. -/
def isDigit (c : Char) : Bool := decide (48 ≤ c.toNat ∧ c.toNat ≤ 57)

/-- Class `\w`: ASCII letters, ASCII digits and the underscore. -/
def isWord (c : Char) : Bool := isLowerAZ c || isUpperAZ c || isDigit c || decide (c.toNat = 95)

/-- Line terminators of ECMAScript: LF, CR, U+2028, U+2029. The pattern `.`
matches every character but these. -/
def isLineTerminator (c : Char) : Bool :=
  decide (c.toNat = 10 ∨ c.toNat = 13 ∨ c.toNat = 8232 ∨ c.toNat = 8233)

/-- Class `\s`: the white space and line terminators of ECMAScript (TAB, VT,
FF, SP, NBSP, U+FEFF, the space separators of Unicode, LF, CR, U+2028,
U+2029). `String.prototype.trim` strips the same set. -/
def isSpace (c : Char) : Bool :=
  decide (c.toNat = 9 ∨ c.toNat = 11 ∨ c.toNat = 12 ∨ c.toNat = 32 ∨ c.toNat = 160
    ∨ c.toNat = 5760 ∨ (8192 ≤ c.toNat ∧ c.toNat ≤ 8202) ∨ c.toNat = 8239
    ∨ c.toNat = 8287 ∨ c.toNat = 12288 ∨ c.toNat = 65279)
  || isLineTerminator c

/-- Number of UTF-16 code units of a character. -/
def utf16Units (c : Char) : Nat := if c.toNat < 65536 then 1 else 2

/-- The JavaScript `s.length`: the number of UTF-16 code units. -/
def jsLength (s : String) : Nat := (s.data.map utf16Units).sum

/-- The JavaScript `s.toLowerCase()` on the ASCII letters; characters outside
ASCII are kept as they are. (JavaScript lower-cases those too, never into one
of the letters of `active`, so comparing the result with `"active"` gives the
same answer. As a key for an e-mail it is exact on ASCII texts only; the login
route on stored documents, `loginOnStore`, takes the lower-casing as a
parameter for that reason.) -/
def toLowerCase (s : String) : String := String.mk (s.data.map Char.toLower)

/-- The JavaScript `s.trim()`. -/
def trim (s : String) : String :=
  String.mk ((s.data.dropWhile isSpace).reverse.dropWhile isSpace).reverse

/-! ## The account document (`models/User.js`) -/

/-- The fields of a loaded user document that the authentication code reads or
writes. `status` is `none` when the loaded document has the status `null`; a
document stored without the field is loaded with the schema default `active`
(see `loadStatus`). `lockUntil` is `none` for `null`. -/
structure User where
  _id : String
  name : String
  email : String
  passwordHash : String
  role : String
  status : Option String
  loginAttempts : Nat
  lockUntil : Option Nat
  deriving DecidableEq, Repr

/-! ## The auth middleware (`middleware/auth.js`) -/

/-- Claims of a verified token that the middleware reads. An absent claim is
`undefined`. -/
structure Claims where
  id : JSVal
  _id : JSVal
  sub : JSVal
  role : JSVal
  r : JSVal
  deriving DecidableEq, Repr

/-- The two spellings of the header that the middleware reads. -/
structure Headers where
  authorization : Option String
  Authorization : Option String
  deriving DecidableEq, Repr

/-- An inbound request, as far as the middleware reads it. -/
structure Request where
  headers : Headers
  deriving DecidableEq, Repr

/-- The identity that the middleware attaches as `req.user`. -/
structure Identity where
  _id : String
  id : String
  role : JSVal
  deriving DecidableEq, Repr

/-- What `User.findById(uid).select(...)` settles to: the promise rejects, or
resolves to `null`, or resolves to a document. -/
inductive Lookup where
  | failed
  | missing
  | found (user : User)
  deriving DecidableEq, Repr

/-- What the middleware does with a request: it answers
`res.status(code).json({ error })`, or it sets `req.user` and calls `next()`. -/
inductive AuthResult where
  | respond (code : Nat) (error : String)
  | next (user : Identity)
  deriving DecidableEq, Repr

/-- The JavaScript `a || b` for a header value `a` (a string or `undefined`)
and a string `b`. -/
def orStr (a : Option String) (b : String) : String :=
  match a with
  | some s => if s = "" then b else s
  | none => b

/-- The text `req.headers.authorization || req.headers.Authorization || ''`. -/
def authorizationHeader (req : Request) : String :=
  orStr req.headers.authorization (orStr req.headers.Authorization "")

/-- The scheme word of the pattern, in lower case. -/
def bearerWord : List Char := ['b', 'e', 'a', 'r', 'e', 'r']

/-- What `(.+)$` accepts: a non-empty text without line terminator. -/
def isDotPlus (tok : List Char) : Bool :=
  !tok.isEmpty && tok.all (fun c => !isLineTerminator c)

/-- The match of `/^Bearer\s+(.+)$/i` on the characters of a header: the
first six characters spell the scheme in any case; `\s+` is greedy, so it is
tried with all the white space that follows, then with one character less,
down to one; the first split whose remainder `(.+)$` accepts gives the
captured group `m[1]`. -/
def bearerExec (hdr : List Char) : Option (List Char) :=
  let rest := hdr.drop 6
  if (hdr.take 6).map Char.toLower = bearerWord then
    (((List.range (rest.takeWhile isSpace).length).reverse).map (fun k => k + 1)).findSome?
      (fun k => if isDotPlus (rest.drop k) then some (rest.drop k) else none)
  else none

/-- The bearer token of a request: `m[1]` of the pattern on the header, if
the pattern matches. -/
def bearerToken (req : Request) : Option String :=
  (bearerExec (authorizationHeader req).data).map String.mk

/-- The subject: `String(payload.id || payload._id || payload.sub || '')`. -/
def subjectId (payload : Claims) : String :=
  (((payload.id.or payload._id).or payload.sub).or (JSVal.str "")).toStr

/-- The role claim: `payload.role || payload.r || undefined`. -/
def claimedRole (payload : Claims) : JSVal :=
  (payload.role.or payload.r).or JSVal.undefined

/-- The test `(user.status || '').toLowerCase() !== 'active'`. -/
def isDisabled (user : User) : Bool :=
  decide (toLowerCase (orStr user.status "") ≠ "active")

/-- The middleware `auth(req, res, next)`. `verify` is
`jwt.verify(·, process.env.JWT_SECRET)` at the time of the request, `none`
when it throws; `findById` is the store lookup at that time. -/
def auth (verify : String → Option Claims) (findById : String → Lookup)
    (req : Request) : AuthResult :=
  match bearerToken req with
  | none => AuthResult.respond 401 "Missing token"
  | some token =>
    match verify token with
    | none => AuthResult.respond 401 "Invalid or expired token"
    | some payload =>
      let uid := subjectId payload
      if uid = "" then AuthResult.respond 401 "Invalid token: no subject"
      else
        let role := claimedRole payload
        match findById uid with
        | Lookup.failed => AuthResult.respond 500 "Auth lookup failed"
        | Lookup.missing => AuthResult.respond 401 "Account not found"
        | Lookup.found user =>
          if isDisabled user then AuthResult.respond 403 "Account disabled"
          else AuthResult.next
            { _id := uid, id := uid, role := role.nullish (JSVal.str user.role) }

/-! ## Lockout helpers of the model (`models/User.js`) -/

/-- The method `user.isLocked()`, read at the instant `now`:
`!!(this.lockUntil && this.lockUntil > new Date())`. A `Date` is truthy
whatever instant it holds. -/
def isLocked (this : User) (now : Nat) : Bool :=
  match this.lockUntil with
  | none => false
  | some lockUntil => decide (lockUntil > now)

/-- The constant `LOCK_TIME_MIN` of `incLoginAttempts`. -/
def LOCK_TIME_MIN : Nat := 10

/-- The constant `MAX_ATTEMPTS` of `incLoginAttempts`. -/
def MAX_ATTEMPTS : Nat := 5

/-- An update document for `updateOne`, restricted to the operators the code
uses: `$set.loginAttempts`, `$set.lockUntil` (`some none` sets `null`) and
`$inc.loginAttempts`. -/
structure Update where
  setLoginAttempts : Option Nat
  setLockUntil : Option (Option Nat)
  incLoginAttempts : Option Nat
  deriving DecidableEq, Repr

/-- The call `doc.updateOne(update)`: the store applies the update to the
stored document with the `_id` of `doc`. It changes the stored document only;
the document in memory keeps the values it was loaded with. -/
def updateOne (update : Update) (stored : User) : User :=
  let attempts := update.setLoginAttempts.getD stored.loginAttempts
  { stored with
    loginAttempts := attempts + update.incLoginAttempts.getD 0
    lockUntil := update.setLockUntil.getD stored.lockUntil }

/-- The reset update `{ $set: { loginAttempts: 0, lockUntil: null } }`. -/
def resetUpdate : Update :=
  { setLoginAttempts := some 0, setLockUntil := some none, incLoginAttempts := none }

/-- The test `this.lockUntil && this.lockUntil <= new Date()` of
`incLoginAttempts`. -/
def lockExpired (this : User) (now : Nat) : Bool :=
  match this.lockUntil with
  | none => false
  | some lockUntil => decide (lockUntil ≤ now)

/-- The object `updates` that `incLoginAttempts` builds and sends last. It is
computed from `this`, the document in memory. -/
def incUpdates (this : User) (now : Nat) : Update :=
  { setLoginAttempts := none
    setLockUntil :=
      if this.loginAttempts + 1 ≥ MAX_ATTEMPTS then
        some (some (now + LOCK_TIME_MIN * 60 * 1000))
      else none
    incLoginAttempts := some 1 }

/-- The method `this.incLoginAttempts()` at the instant `now`. `this` is the
document in memory and `stored` the stored document; the result is the stored
document after the call. -/
def incLoginAttempts (this stored : User) (now : Nat) : User :=
  let stored1 := if lockExpired this now then updateOne resetUpdate stored else stored
  updateOne (incUpdates this now) stored1

/-- The method `this.resetLoginAttempts()`; the result is the stored document
after the call. -/
def resetLoginAttempts (stored : User) : User := updateOne resetUpdate stored

/-! ## The auth routes (`routes/auth.js`) -/

/-- The constant `MIN` of the password validator. -/
def MIN : Nat := 8

/-- The constant `MAX` of the password validator. -/
def MAX : Nat := 64

/-- The function `validatePassword(pw)`; `none` is `null`. -/
def validatePassword (pw : JSVal) : Option String :=
  let s := (pw.or (JSVal.str "")).toStr
  if jsLength s < MIN ∨ jsLength s > MAX then some "Password must be 8–64 characters"
  else if !s.data.any isLowerAZ then some "Include a lowercase letter"
  else if !s.data.any isUpperAZ then some "Include an uppercase letter"
  else if !s.data.any isDigit then some "Include a number"
  else if !s.data.any (fun c => !(isWord c || isSpace c)) then some "Include a special character"
  else if s.data.any isSpace then some "No spaces allowed"
  else none

/-- The function `normalizeEmail(s)`: `String(s || "").trim().toLowerCase()`. -/
def normalizeEmail (s : JSVal) : String :=
  toLowerCase (trim (s.or (JSVal.str "")).toStr)

/-- The payload `{ id: user._id, role: user.role }` of an access token. -/
def accessClaims (user : User) : Claims :=
  { id := JSVal.str user._id, _id := JSVal.undefined, sub := JSVal.undefined,
    role := JSVal.str user.role, r := JSVal.undefined }

/-- The payload `{ id: user._id }` of a refresh token. -/
def refreshClaims (user : User) : Claims :=
  { id := JSVal.str user._id, _id := JSVal.undefined, sub := JSVal.undefined,
    role := JSVal.undefined, r := JSVal.undefined }

/-- The library calls of the routes: `bcrypt.compare`, and `jwt.sign` with the
access secret and TTL and with the refresh secret and TTL. -/
structure Library where
  compare : String → String → Bool
  signAccess : Claims → String
  signRefresh : Claims → String

/-- The function `issueAccessToken(user)`. -/
def issueAccessToken (lib : Library) (user : User) : String :=
  lib.signAccess (accessClaims user)

/-- The function `issueRefreshToken(user)`. -/
def issueRefreshToken (lib : Library) (user : User) : String :=
  lib.signRefresh (refreshClaims user)

/-- The body `req.body` of a login request; an absent field is `undefined`. -/
structure LoginBody where
  email : JSVal
  password : JSVal
  deriving DecidableEq, Repr

/-- The object `user` in the body of a successful login. -/
structure LoginUser where
  id : String
  name : String
  email : String
  role : String
  status : Option String
  deriving DecidableEq, Repr

/-- The response of `POST /login`: `res.status(code).json({ error })`,
`res.status(code).json({ message })`, or the 200 answer
`res.json({ token, user })` together with the refresh cookie it sets. -/
inductive LoginResponse where
  | error (code : Nat) (error : String)
  | message (code : Nat) (message : String)
  | ok (token : String) (refreshCookie : String) (user : LoginUser)
  deriving DecidableEq, Repr

/-- The HTTP status of a login response. -/
def LoginResponse.status : LoginResponse → Nat
  | LoginResponse.error code _ => code
  | LoginResponse.message code _ => code
  | LoginResponse.ok _ _ _ => 200

/-- The test `user.status && user.status !== 'active'` of the login route. -/
def loginDisabled (user : User) : Bool :=
  match user.status with
  | none => false
  | some status => decide (status ≠ "") && decide (status ≠ "active")

/-- The result `ok` of
`bcrypt.compare(String(password || ""), user.passwordHash || "")`. -/
def passwordOk (lib : Library) (user : User) (password : JSVal) : Bool :=
  lib.compare (password.or (JSVal.str "")).toStr (orStr (some user.passwordHash) "")

/-- The handler of `POST /login` from the point where the account lookup has
settled to `found` (a document or `null`), at the instant `now`. The result
is the response and the stored document of the account after the request. -/
def loginHandler (lib : Library) (found : Option User) (password : JSVal) (now : Nat) :
    LoginResponse × Option User :=
  match found with
  | none => (LoginResponse.error 401 "Invalid credentials", none)
  | some user =>
    if isLocked user now then
      (LoginResponse.error 423 "Account locked. Try again later.", some user)
    else if loginDisabled user then
      (LoginResponse.message 403 "Account disabled", some user)
    else if !passwordOk lib user password then
      (LoginResponse.error 401 "Invalid credentials", some (incLoginAttempts user user now))
    else
      (LoginResponse.ok (issueAccessToken lib user) (issueRefreshToken lib user)
        { id := user._id, name := user.name, email := user.email, role := user.role,
          status := user.status },
       some (resetLoginAttempts user))

/-- The route `POST /login`: `findOne` is the store lookup by e-mail at the
time of the request. -/
def login (lib : Library) (findOne : String → Option User) (body : LoginBody) (now : Nat) :
    LoginResponse × Option User :=
  loginHandler lib (findOne (normalizeEmail body.email)) body.password now

/-- A login attempt on one account: the password sent and the instant. -/
structure Attempt where
  password : JSVal
  now : Nat
  deriving DecidableEq, Repr

/-- The stored document of an account after one login attempt on it. -/
def afterLogin (lib : Library) (stored : User) (a : Attempt) : User :=
  ((loginHandler lib (some stored) a.password a.now).2).getD stored

/-- The stored document of an account after a sequence of login attempts on
it, one after the other. -/
def afterLogins (lib : Library) (stored : User) (attempts : List Attempt) : User :=
  attempts.foldl (afterLogin lib) stored

/-! ## The role guard (`middleware/auth.js`) -/

/-- The JavaScript `a === b` on the values of the model. An object or array
is compared by reference, and a value parsed from a token or read from the
store is never the object the route passes, so such a comparison is false. -/
def JSVal.strictEq : JSVal → JSVal → Bool
  | JSVal.obj _, _ => false
  | _, JSVal.obj _ => false
  | a, b => decide (a = b)

/-- A request as the role guard receives it: `req.user` is absent unless the
auth middleware has attached an identity. -/
structure GuardedRequest where
  headers : Headers
  user : Option Identity
  deriving DecidableEq, Repr

/-- What the role guard does: it answers `res.status(code).json({ error })`
or calls `next()`. -/
inductive GateResult where
  | respond (code : Nat) (error : String)
  | next
  deriving DecidableEq, Repr

/-- The handler that `requireRole(role)` returns:
`if (!req.user || req.user.role !== role)` it answers 403, else it calls
`next()`. -/
def requireRole (role : JSVal) (req : GuardedRequest) : GateResult :=
  match req.user with
  | none => GateResult.respond 403 "Forbidden"
  | some user =>
    if !user.role.strictEq role then GateResult.respond 403 "Forbidden"
    else GateResult.next

/-- A route mounted as `router.get(path, auth, requireRole(role), handler)`:
the guard runs on the request with the identity the auth middleware attached,
and only when that middleware called `next()`. -/
def authThenRequireRole (verify : String → Option Claims) (findById : String → Lookup)
    (role : JSVal) (req : Request) : GateResult :=
  match auth verify findById req with
  | AuthResult.respond code error => GateResult.respond code error
  | AuthResult.next user => requireRole role { headers := req.headers, user := some user }

/-- The store lookups that the auth middleware makes for a request, by the id
looked up: one when a token verifies and a subject is resolved, none
otherwise. -/
def authLookups (verify : String → Option Claims) (req : Request) : List String :=
  match bearerToken req with
  | none => []
  | some token =>
    match verify token with
    | none => []
    | some payload => if subjectId payload = "" then [] else [subjectId payload]

/-- Why `jwt.verify` throws. -/
inductive JwtError where
  | expired
  | malformed
  | badSignature
  | notBefore
  deriving DecidableEq, Repr

/-- The statement `try { ... jwt.verify(token, secret) ... } catch (err)`: the
handler does not read `err`, so a verifier that throws is seen as one that
gives nothing. -/
def caught (verify : String → Except JwtError Claims) (token : String) : Option Claims :=
  match verify token with
  | Except.ok payload => some payload
  | Except.error _ => none

/-! ## Tokens and the environment (`routes/auth.js`) -/

/-- The variables of `process.env` that the authentication code reads. -/
structure Env where
  JWT_SECRET : String
  JWT_REFRESH_SECRET : String
  JWT_ACCESS_TTL : Option String
  JWT_REFRESH_TTL : Option String
  NODE_ENV : Option String
  deriving DecidableEq, Repr

/-- The library `jsonwebtoken` as the code uses it: `sign payload secret
expiresIn now` is `jwt.sign(payload, secret, { expiresIn })` called at `now`;
`verify token secret now` is `jwt.verify(token, secret)` called at `now`,
`none` when it throws; `expiry expiresIn issuedAt` is the instant at which a
token signed at `issuedAt` with that `expiresIn` expires. -/
structure Jwt where
  sign : Claims → String → String → Nat → String
  verify : String → String → Nat → Option Claims
  expiry : String → Nat → Nat

/-- The option `expiresIn: process.env.JWT_ACCESS_TTL || "15m"`. -/
def accessTtl (env : Env) : String := orStr env.JWT_ACCESS_TTL "15m"

/-- The option `expiresIn: process.env.JWT_REFRESH_TTL || "7d"`. -/
def refreshTtl (env : Env) : String := orStr env.JWT_REFRESH_TTL "7d"

/-- The library calls of the routes in an environment, at the instant `now`:
access tokens are signed with `JWT_SECRET`, refresh tokens with
`JWT_REFRESH_SECRET`. -/
def envLibrary (jwt : Jwt) (compare : String → String → Bool) (env : Env) (now : Nat) :
    Library :=
  { compare := compare
    signAccess := fun payload => jwt.sign payload env.JWT_SECRET (accessTtl env) now
    signRefresh := fun payload => jwt.sign payload env.JWT_REFRESH_SECRET (refreshTtl env) now }

/-- The verifier of the auth middleware: `jwt.verify(·, process.env.JWT_SECRET)`
at the instant `now`. -/
def verifyAccess (jwt : Jwt) (env : Env) (now : Nat) (token : String) : Option Claims :=
  jwt.verify token env.JWT_SECRET now

/-- The verifier of `POST /refresh`:
`jwt.verify(·, process.env.JWT_REFRESH_SECRET)` at the instant `now`. -/
def verifyRefresh (jwt : Jwt) (env : Env) (now : Nat) (token : String) : Option Claims :=
  jwt.verify token env.JWT_REFRESH_SECRET now

/-- What the code relies on from `jsonwebtoken`, for one payload signed at
`issuedAt` with `expiresIn` and verified at `now`, and for the secrets in
use: the token verifies under the secret it was signed with as long as it has
not expired, and it verifies under no other secret. -/
def Jwt.SoundFor (jwt : Jwt) (secrets : List String) (payload : Claims) (expiresIn : String)
    (issuedAt now : Nat) : Prop :=
  (∀ s ∈ secrets, now < jwt.expiry expiresIn issuedAt →
    jwt.verify (jwt.sign payload s expiresIn issuedAt) s now = some payload) ∧
  (∀ s ∈ secrets, ∀ other ∈ secrets, s ≠ other →
    jwt.verify (jwt.sign payload s expiresIn issuedAt) other now = none)

/-! ## The refresh route (`routes/auth.js`) -/

/-- The response of `POST /refresh`: `res.status(code).json({ error })`, or the
200 answer `res.json({ token })` together with the refresh cookie it sets. -/
inductive RefreshResponse where
  | error (code : Nat) (error : String)
  | ok (token : String) (refreshCookie : String)
  deriving DecidableEq, Repr

/-- The HTTP status of a refresh response. -/
def RefreshResponse.status : RefreshResponse → Nat
  | RefreshResponse.error code _ => code
  | RefreshResponse.ok _ _ => 200

/-- The access token in the body of a refresh response, if any. -/
def RefreshResponse.token : RefreshResponse → Option String
  | RefreshResponse.error _ _ => none
  | RefreshResponse.ok token _ => some token

/-- The refresh cookie that a refresh response sets, if any. -/
def RefreshResponse.cookie : RefreshResponse → Option String
  | RefreshResponse.error _ _ => none
  | RefreshResponse.ok _ refreshCookie => some refreshCookie

/-- The test `user.status && user.status !== 'active'` of the refresh route. -/
def refreshDisabled (user : User) : Bool :=
  match user.status with
  | none => false
  | some status => decide (status ≠ "") && decide (status ≠ "active")

/-- The route `POST /refresh`. `cookie` is `req.cookies.refresh` (`none` when
there is no such cookie), `verify` is
`jwt.verify(·, process.env.JWT_REFRESH_SECRET)` at the time of the request and
`findById` the store lookup `User.findById(payload.id)`. Whatever throws
inside the `try` is answered by the `catch`. -/
def refresh (lib : Library) (verify : String → Option Claims) (findById : JSVal → Lookup)
    (cookie : Option String) : RefreshResponse :=
  match cookie with
  | none => RefreshResponse.error 401 "Missing refresh"
  | some token =>
    if token = "" then RefreshResponse.error 401 "Missing refresh"
    else
      match verify token with
      | none => RefreshResponse.error 401 "Invalid refresh"
      | some payload =>
        match findById payload.id with
        | Lookup.failed => RefreshResponse.error 401 "Invalid refresh"
        | Lookup.missing => RefreshResponse.error 401 "Invalid refresh"
        | Lookup.found user =>
          if refreshDisabled user then RefreshResponse.error 403 "Account disabled"
          else RefreshResponse.ok (issueAccessToken lib user) (issueRefreshToken lib user)

/-! ## The signup route (`routes/auth.js`, schema of `models/User.js`) -/

/-- Class `[A-Za-z]`. -/
def isLetterAZ (c : Char) : Bool := isLowerAZ c || isUpperAZ c

/-- The pattern `NAME_RE`, `/^[A-Za-z][A-Za-z '\-]{1,49}$/`: a letter, then
1 to 49 characters that are letters, spaces, apostrophes or hyphens. -/
def nameMatches (s : String) : Bool :=
  match s.data with
  | [] => false
  | c :: rest =>
    isLetterAZ c && decide (1 ≤ rest.length ∧ rest.length ≤ 49) &&
      rest.all (fun d => isLetterAZ d || decide (d.toNat = 32 ∨ d.toNat = 39 ∨ d.toNat = 45))

/-- Class `[^\s@]`. -/
def isEmailChar (c : Char) : Bool := !isSpace c && decide (c.toNat ≠ 64)

/-- The pattern `emailRe` (the same as `EMAIL_RE` of the schema),
`/^[^\s@]+@[^\s@]+\.[^\s@]+$/`. The three runs exclude `@`, so the text has
one `@`; what stands before it is not empty; what stands after it has a dot
that is neither its first nor its last character; and no character is white
space. -/
def emailMatches (s : String) : Bool :=
  let name := s.data.takeWhile (fun c => decide (c.toNat ≠ 64))
  let host := (s.data.dropWhile (fun c => decide (c.toNat ≠ 64))).drop 1
  decide (name.length < s.data.length) && !name.isEmpty && name.all isEmailChar &&
    host.all isEmailChar &&
    (List.range host.length).any
      (fun i => decide (host.get? i = some '.' ∧ 0 < i ∧ i + 1 < host.length))

/-- The body of a signup request (`req.body || {}`); an absent field is
`undefined`. -/
structure SignupBody where
  name : JSVal
  email : JSVal
  password : JSVal
  role : JSVal
  deriving DecidableEq, Repr

/-- The object `user` in the body of a successful signup. -/
structure SignupUser where
  id : String
  name : String
  email : String
  role : String
  deriving DecidableEq, Repr

/-- The response of `POST /signup`: `res.status(code).json({ message })`, or
the 200 answer `res.json({ token, user })` with the refresh cookie it sets. -/
inductive SignupResponse where
  | message (code : Nat) (message : String)
  | ok (token : String) (refreshCookie : String) (user : SignupUser)
  deriving DecidableEq, Repr

/-- The HTTP status of a signup response. -/
def SignupResponse.status : SignupResponse → Nat
  | SignupResponse.message code _ => code
  | SignupResponse.ok _ _ _ => 200

/-- The refresh cookie that a signup response sets, if any. -/
def SignupResponse.cookie : SignupResponse → Option String
  | SignupResponse.message _ _ => none
  | SignupResponse.ok _ refreshCookie _ => some refreshCookie

/-- What a signup request does: its response, and the account it created in
the store, if any. -/
structure SignupResult where
  response : SignupResponse
  created : Option User
  deriving DecidableEq, Repr

/-- The validators of `UserSchema` that run when a document is created: `name`
is required and matches `NAME_RE`, `email` is required and matches
`EMAIL_RE`, `passwordHash` is required, `role` and `status` are in their
`enum`. -/
def schemaValid (doc : User) : Bool :=
  nameMatches doc.name && emailMatches doc.email && decide (doc.passwordHash ≠ "") &&
    decide (doc.role = "admin" ∨ doc.role = "model" ∨ doc.role = "client") &&
    decide (doc.status = some "active" ∨ doc.status = some "disabled")

/-- The role a signup stores: the destructuring default `role = "client"`
applies to an absent role, and
`if (!allowedRoles.includes(role)) role = "client"` to every value other than
the strings `client` and `model`. -/
def signupRole (role : JSVal) : String :=
  let requested := if role = JSVal.undefined then JSVal.str "client" else role
  if requested = JSVal.str "client" ∨ requested = JSVal.str "model" then requested.toStr
  else "client"

/-- The route `POST /signup`. `hash` is `bcrypt.hash(·, 10)` (`none` when it
rejects), `findOne` the store lookup `User.findOne({ email })`, `newId` the
`_id` of the document that `User.create` builds and `insert` tells whether
the store accepts it. `User.create` rejects a document that fails the schema
validators; whatever throws inside the `try` is answered 500 by the `catch`. -/
def signup (lib : Library) (hash : JSVal → Option String) (findOne : String → Lookup)
    (newId : String) (insert : User → Bool) (body : SignupBody) : SignupResult :=
  let name := trim (body.name.or (JSVal.str "")).toStr
  let email := normalizeEmail body.email
  if name = "" ∨ email = "" ∨ body.password.truthy = false then
    { response := SignupResponse.message 400 "Missing fields", created := none }
  else if !emailMatches email then
    { response := SignupResponse.message 400 "Invalid email", created := none }
  else if (JSVal.str ((validatePassword body.password).getD "")).truthy then
    { response := SignupResponse.message 400 ((validatePassword body.password).getD ""),
      created := none }
  else
    match findOne email with
    | Lookup.failed => { response := SignupResponse.message 500 "Signup error", created := none }
    | Lookup.found _ =>
      { response := SignupResponse.message 400 "Email already in use", created := none }
    | Lookup.missing =>
      match hash body.password with
      | none => { response := SignupResponse.message 500 "Signup error", created := none }
      | some passwordHash =>
        let user : User :=
          { _id := newId, name := name, email := email, passwordHash := passwordHash,
            role := signupRole body.role, status := some "active", loginAttempts := 0,
            lockUntil := none }
        if schemaValid user && insert user then
          { response := SignupResponse.ok (issueAccessToken lib user)
              (issueRefreshToken lib user)
              { id := user._id, name := user.name, email := user.email, role := user.role },
            created := some user }
        else { response := SignupResponse.message 500 "Signup error", created := none }

/-! ## The refresh cookie and the store of the refresh route (`routes/auth.js`) -/

/-- A cookie as `res.cookie(name, value, options)` sets it, with the options
the code gives; `maxAge` is in milliseconds. -/
structure Cookie where
  name : String
  value : String
  httpOnly : Bool
  sameSite : String
  secure : Bool
  maxAge : Nat
  deriving DecidableEq, Repr

/-- The function `setRefreshCookie(res, token)`: the cookie it sets, with
`isProd = process.env.NODE_ENV === "production"`. -/
def setRefreshCookie (env : Env) (token : String) : Cookie :=
  let isProd := decide (env.NODE_ENV = some "production")
  { name := "refresh"
    value := token
    httpOnly := true
    sameSite := if isProd then "strict" else "lax"
    secure := isProd
    maxAge := 7 * 24 * 60 * 60 * 1000 }

/-- The lifetime, in milliseconds, of the refresh token that
`issueRefreshToken` signs at `issuedAt`: from `issuedAt` to the expiry that
`jsonwebtoken` gives for `expiresIn: process.env.JWT_REFRESH_TTL || "7d"`. -/
def refreshTokenLifetime (jwt : Jwt) (env : Env) (issuedAt : Nat) : Nat :=
  jwt.expiry (refreshTtl env) issuedAt - issuedAt

/-- The route `POST /refresh` on a store: it reads the store through
`findById` and calls nothing that writes, so the store after the request is
the store before it. -/
def refreshOnStore {σ : Type} (lib : Library) (verify : String → Option Claims)
    (findById : σ → JSVal → Lookup) (store : σ) (cookie : Option String) :
    RefreshResponse × σ :=
  (refresh lib verify (findById store) cookie, store)

/-! ## The login route on a store whose updates can fail -/

/-- The call `doc.updateOne(update)` on a store that may reject it: `accepts`
tells whether the store performs an update, and `none` is a rejected
promise. -/
def tryUpdateOne (accepts : Update → Bool) (update : Update) (stored : User) : Option User :=
  if accepts update then some (updateOne update stored) else none

/-- The method `this.incLoginAttempts()` on such a store: whether its promise
resolves, and the stored document after the call. The reset update is awaited
inside the method and the last update by the caller; a rejected update ends
the method there. -/
def incLoginAttemptsOn (accepts : Update → Bool) (this stored : User) (now : Nat) :
    Bool × User :=
  let afterReset :=
    if lockExpired this now then tryUpdateOne accepts resetUpdate stored else some stored
  match afterReset with
  | none => (false, stored)
  | some stored1 =>
    match tryUpdateOne accepts (incUpdates this now) stored1 with
    | none => (false, stored1)
    | some stored2 => (true, stored2)

/-- The method `this.resetLoginAttempts()` on such a store: whether its promise
resolves, and the stored document after the call. -/
def resetLoginAttemptsOn (accepts : Update → Bool) (stored : User) : Bool × User :=
  match tryUpdateOne accepts resetUpdate stored with
  | none => (false, stored)
  | some stored1 => (true, stored1)

/-- The handler of `POST /login` on such a store. The handler is an `async`
function without `try`: when an awaited update rejects, the handler ends
there, before the statement that writes the response, and the first component
is `none` (no response written by the handler). The second component is the
stored document after the request. -/
def loginHandlerOn (lib : Library) (accepts : Update → Bool) (found : Option User)
    (password : JSVal) (now : Nat) : Option LoginResponse × Option User :=
  match found with
  | none => (some (LoginResponse.error 401 "Invalid credentials"), none)
  | some user =>
    if isLocked user now then
      (some (LoginResponse.error 423 "Account locked. Try again later."), some user)
    else if loginDisabled user then
      (some (LoginResponse.message 403 "Account disabled"), some user)
    else if !passwordOk lib user password then
      match incLoginAttemptsOn accepts user user now with
      | (false, stored) => (none, some stored)
      | (true, stored) => (some (LoginResponse.error 401 "Invalid credentials"), some stored)
    else
      match resetLoginAttemptsOn accepts user with
      | (false, stored) => (none, some stored)
      | (true, stored) =>
        (some (LoginResponse.ok (issueAccessToken lib user) (issueRefreshToken lib user)
          { id := user._id, name := user.name, email := user.email, role := user.role,
            status := user.status }),
         some stored)

/-! ## Output hygiene (`models/User.js`) -/

/-- A plain object, as the `toJSON` and `toObject` transforms receive it: its
own keys with their values. -/
abbrev PlainObject := List (String × JSVal)

/-- The value `ret[key]` of an own key, `none` when the object has no such
key. -/
def PlainObject.get (ret : PlainObject) (key : String) : Option JSVal :=
  (ret.find? (fun entry => decide (entry.1 = key))).map (fun entry => entry.2)

/-- Whether the object has the own key `key`. -/
def PlainObject.hasKey (ret : PlainObject) (key : String) : Bool :=
  ret.any (fun entry => decide (entry.1 = key))

/-- The statement `delete ret[key]`. -/
def PlainObject.delete (ret : PlainObject) (key : String) : PlainObject :=
  ret.filter (fun entry => decide (entry.1 ≠ key))

/-- The transform `hideSensitive(_, ret)`: it deletes `passwordHash`,
`loginAttempts` and `lockUntil` from `ret` and returns `ret`. The first
argument, the document, is not read. -/
def hideSensitive (_doc : User) (ret : PlainObject) : PlainObject :=
  ((ret.delete "passwordHash").delete "loginAttempts").delete "lockUntil"

/-! ## Stored documents and the schema defaults (`models/User.js`) -/

/-- What the store holds in the field `status` of a user document: no such
field, `null`, or a text. -/
inductive StoredStatus where
  | absent
  | null
  | text (value : String)
  deriving DecidableEq, Repr

/-- The `status` of the document that Mongoose builds from a stored one: the
schema default `default: "active"` fills an absent field, `null` stays `null`
and a text stays as it is. -/
def loadStatus : StoredStatus → Option String
  | StoredStatus.absent => some "active"
  | StoredStatus.null => none
  | StoredStatus.text value => some value

/-- Whether a stored status is one the schema and the code write: the field
left to its default, or one of the `enum` values `active` and `disabled`
(the only write of `status`, in `routes/admin.js`, accepts these two). -/
def StoredStatus.inSchema : StoredStatus → Bool
  | StoredStatus.absent => true
  | StoredStatus.null => false
  | StoredStatus.text value => decide (value = "active" ∨ value = "disabled")

/-- A user document as the store holds it; it differs from the loaded
document `User` in the field `status`. -/
structure StoredUser where
  _id : String
  name : String
  email : String
  passwordHash : String
  role : String
  status : StoredStatus
  loginAttempts : Nat
  lockUntil : Option Nat
  deriving DecidableEq, Repr

/-- The document that a query builds from a stored one. -/
def StoredUser.load (doc : StoredUser) : User :=
  { _id := doc._id
    name := doc.name
    email := doc.email
    passwordHash := doc.passwordHash
    role := doc.role
    status := loadStatus doc.status
    loginAttempts := doc.loginAttempts
    lockUntil := doc.lockUntil }

/-- What a lookup by id finds in the store: the call rejects, or there is no
such document, or there is one. -/
inductive StoredLookup where
  | failed
  | missing
  | found (doc : StoredUser)
  deriving DecidableEq, Repr

/-- The lookup `User.findById(uid).select(...)` of the auth middleware on a
store: the document found is loaded, with the schema defaults. -/
def findByIdIn (store : String → StoredLookup) (uid : String) : Lookup :=
  match store uid with
  | StoredLookup.failed => Lookup.failed
  | StoredLookup.missing => Lookup.missing
  | StoredLookup.found doc => Lookup.found doc.load

/-- The function `normalizeEmail(s)` with `lower` standing for
`String.prototype.toLowerCase`. -/
def normalizeEmailVia (lower : String → String) (s : JSVal) : String :=
  lower (trim (s.or (JSVal.str "")).toStr)

/-- The route `POST /login` on a store of stored documents, with `lower`
standing for `String.prototype.toLowerCase`: the document found under the
normalized e-mail is loaded, with the schema defaults, and handled. -/
def loginOnStore (lower : String → String) (lib : Library)
    (findOne : String → Option StoredUser) (body : LoginBody) (now : Nat) :
    LoginResponse × Option User :=
  loginHandler lib ((findOne (normalizeEmailVia lower body.email)).map StoredUser.load)
    body.password now

/-! ## Concrete inputs used by the examples below -/

/-- Claims of an access token of the account `u1`. -/
def sampleClaims : Claims :=
  { id := JSVal.str "u1", _id := JSVal.undefined, sub := JSVal.undefined,
    role := JSVal.str "client", r := JSVal.undefined }

/-- A request that carries the bearer token `abc`. -/
def sampleRequest : Request :=
  { headers := { authorization := some "Bearer abc", Authorization := none } }

/-- A verifier that accepts the token `abc` only. -/
def sampleVerify (token : String) : Option Claims :=
  if token = "abc" then some sampleClaims else none

/-- An active account, not locked, with no failed login. -/
def sampleUser : User :=
  { _id := "u1", name := "Ann", email := "ann@x.com", passwordHash := "Aa1!aaaa",
    role := "client", status := some "active", loginAttempts := 0, lockUntil := none }

/-- A store in which the account is active. -/
def storeActive (_uid : String) : Lookup := Lookup.found sampleUser

/-- The same store after the account was disabled. -/
def storeDisabled (_uid : String) : Lookup :=
  Lookup.found { sampleUser with status := some "disabled" }

/-- A store whose lookup rejects. -/
def storeFailing (_uid : String) : Lookup := Lookup.failed

/-- The outcomes that the decision order of the specification lists: the five
error answers and the call of `next`. -/
def ListedAuthOutcome (r : AuthResult) : Prop :=
  r = AuthResult.respond 401 "Missing token" ∨
  r = AuthResult.respond 401 "Invalid or expired token" ∨
  r = AuthResult.respond 401 "Invalid token: no subject" ∨
  r = AuthResult.respond 401 "Account not found" ∨
  r = AuthResult.respond 403 "Account disabled" ∨
  ∃ user, r = AuthResult.next user

/-- A toy library for the examples: the stored hash is the password itself,
and a token is a fixed word followed by the subject. -/
def sampleLib : Library :=
  { compare := fun password hash => decide (password = hash)
    signAccess := fun claims => "access." ++ claims.id.toStr
    signRefresh := fun claims => "refresh." ++ claims.id.toStr }

/-- A store that holds one account, found under its e-mail. -/
def sampleStore (user : User) (email : String) : Option User :=
  if email = user.email then some user else none

/-- A login body with the e-mail and the right password of `sampleUser`. -/
def sampleBody : LoginBody :=
  { email := JSVal.str " Ann@X.com", password := JSVal.str "Aa1!aaaa" }

/-- A login attempt with a wrong password for `sampleUser`. -/
def wrongAt (now : Nat) : Attempt := { password := JSVal.str "guess", now := now }

/-- A login attempt with the right password of `sampleUser`. -/
def rightAt (now : Nat) : Attempt := { password := JSVal.str "Aa1!aaaa", now := now }

/-- The account `sampleUser` after five failed logins at instant 0: five
attempts counted and a lock until minute 10. -/
def staleUser : User := { sampleUser with loginAttempts := 5, lockUntil := some 600000 }

/-- The status code of `POST /login` as the specification words it: 401 when
no account has the e-mail, else 423 when the account is locked, else 403 when
its status is not `active`, else 401 when the password does not match, else
200. -/
def loginStatusAsStated (lib : Library) (findOne : String → Option User) (body : LoginBody)
    (now : Nat) : Nat :=
  match findOne (normalizeEmail body.email) with
  | none => 401
  | some user =>
    if isLocked user now then 423
    else if user.status ≠ some "active" then 403
    else if !passwordOk lib user body.password then 401
    else 200

/-- The text `String(pw || "")` that `validatePassword` examines. -/
def candidateText (pw : JSVal) : String := (pw.or (JSVal.str "")).toStr

/-- An ASCII letter or digit. -/
def isAlphanumeric (c : Char) : Bool := isLowerAZ c || isUpperAZ c || isDigit c

/-- The password policy as the specification words it; the special character
is one that is neither alphanumeric nor white space. -/
def MeetsPolicyAsStated (s : String) : Prop :=
  8 ≤ jsLength s ∧ jsLength s ≤ 64 ∧
  (∃ c ∈ s.data, isLowerAZ c = true) ∧
  (∃ c ∈ s.data, isUpperAZ c = true) ∧
  (∃ c ∈ s.data, isDigit c = true) ∧
  (∃ c ∈ s.data, isAlphanumeric c = false ∧ isSpace c = false) ∧
  (∀ c ∈ s.data, isSpace c = false)

/-- The password policy with the special character read as the code tests it:
a character that is neither a word character (ASCII letter, ASCII digit,
underscore) nor white space. -/
def MeetsPolicy (s : String) : Prop :=
  8 ≤ jsLength s ∧ jsLength s ≤ 64 ∧
  (∃ c ∈ s.data, isLowerAZ c = true) ∧
  (∃ c ∈ s.data, isUpperAZ c = true) ∧
  (∃ c ∈ s.data, isDigit c = true) ∧
  (∃ c ∈ s.data, isWord c = false ∧ isSpace c = false) ∧
  (∀ c ∈ s.data, isSpace c = false)

/-- The six rules of the password policy. -/
inductive PasswordRule where
  | length
  | lowercase
  | uppercase
  | digit
  | special
  | whitespace
  deriving DecidableEq, Repr

/-- The place of a rule in the fixed order length, lowercase, uppercase, digit,
special, whitespace. -/
def PasswordRule.order : PasswordRule → Nat
  | length => 0
  | lowercase => 1
  | uppercase => 2
  | digit => 3
  | special => 4
  | whitespace => 5

/-- Whether a text violates a rule: its length is outside 8..64; it has no
lowercase letter; no uppercase letter; no digit; no character outside the word
characters and white space; it has a white-space character. -/
def PasswordRule.violatedBy (rule : PasswordRule) (s : String) : Bool :=
  match rule with
  | length => decide (jsLength s < 8 ∨ 64 < jsLength s)
  | lowercase => !s.data.any isLowerAZ
  | uppercase => !s.data.any isUpperAZ
  | digit => !s.data.any isDigit
  | special => !s.data.any (fun c => !(isWord c || isSpace c))
  | whitespace => s.data.any isSpace

/-- The reason reported for a rule. -/
def PasswordRule.reason : PasswordRule → String
  | length => "Password must be 8–64 characters"
  | lowercase => "Include a lowercase letter"
  | uppercase => "Include an uppercase letter"
  | digit => "Include a number"
  | special => "Include a special character"
  | whitespace => "No spaces allowed"

/-- Claims of an access token of the account `u1` that carry the role
`admin`. -/
def sampleAdminClaims : Claims := { sampleClaims with role := JSVal.str "admin" }

/-- A request that carries the bearer token `adm`. -/
def sampleAdminRequest : Request :=
  { headers := { authorization := some "Bearer adm", Authorization := none } }

/-- A verifier that accepts two tokens of the account `u1`: `abc` with the
role claim `client` and `adm` with the role claim `admin`. -/
def sampleVerifyRoles (token : String) : Option Claims :=
  if token = "abc" then some sampleClaims
  else if token = "adm" then some sampleAdminClaims
  else none

/-- Claims whose `id` is the empty array `[]`, for which `String(·)` gives the
empty text. -/
def emptyArrayClaims : Claims := { sampleClaims with id := JSVal.obj "" }

/-- A verifier that accepts the token `abc` with the claims
`emptyArrayClaims`. -/
def sampleVerifyArray (token : String) : Option Claims :=
  if token = "abc" then some emptyArrayClaims else none

/-- The claim that the middleware reads as the subject: the first of `id`,
`_id`, `sub` that is truthy, and `sub` when none is. -/
def subjectClaim (payload : Claims) : JSVal :=
  if payload.id.truthy then payload.id
  else if payload._id.truthy then payload._id
  else payload.sub

/-- A verifier for which every token has expired. -/
def expiredVerifier (_token : String) : Except JwtError Claims := Except.error JwtError.expired

/-- A verifier for which every token has a bad signature. -/
def forgedVerifier (_token : String) : Except JwtError Claims :=
  Except.error JwtError.badSignature

/-- An environment with two different secrets and the default lifetimes. -/
def sampleEnv : Env :=
  { JWT_SECRET := "s-access", JWT_REFRESH_SECRET := "s-refresh", JWT_ACCESS_TTL := none,
    JWT_REFRESH_TTL := none, NODE_ENV := none }

/-- A toy `jsonwebtoken` for the examples: a token is the secret followed by
the subject, the role and the lifetime; the verifier knows the two tokens of
`sampleUser` signed at instant 0. -/
def toyJwt : Jwt :=
  { sign := fun payload secret expiresIn _ =>
      secret ++ "." ++ payload.id.toStr ++ "." ++ payload.role.toStr ++ "." ++ expiresIn
    verify := fun token secret now =>
      if token = secret ++ ".u1.client.15m" then
        (if now < 900000 then some (accessClaims sampleUser) else none)
      else if token = secret ++ ".u1.undefined.7d" then
        (if now < 604800000 then some (refreshClaims sampleUser) else none)
      else none
    expiry := fun expiresIn issuedAt =>
      if expiresIn = "15m" then issuedAt + 900000 else issuedAt + 604800000 }

/-- A toy `bcrypt.compare`: the stored hash is the password itself. -/
def sampleCompare (password hash : String) : Bool := decide (password = hash)

/-- A request that carries the refresh token of `sampleUser` as bearer
token. -/
def sampleRefreshBearer : Request :=
  { headers := { authorization := some "Bearer s-refresh.u1.undefined.7d",
                 Authorization := none } }

/-- A store that holds one account, found under its `_id`. -/
def storeById (user : User) (id : JSVal) : Lookup :=
  if id = JSVal.str user._id then Lookup.found user else Lookup.missing

/-- A refresh verifier that accepts the token `rrr` of `sampleUser` only. -/
def sampleVerifyRefresh (token : String) : Option Claims :=
  if token = "rrr" then some (refreshClaims sampleUser) else none

/-- A signup body that asks for the role `admin`. -/
def sampleSignupBody : SignupBody :=
  { name := JSVal.str "Ann", email := JSVal.str "ann@x.com", password := JSVal.str "Aa1!aaaa",
    role := JSVal.str "admin" }

/-- A signup body with the one-letter name `A`, which `NAME_RE` rejects, and
no role. -/
def shortNameBody : SignupBody :=
  { name := JSVal.str "A", email := JSVal.str "ann@x.com", password := JSVal.str "Aa1!aaaa",
    role := JSVal.undefined }

/-- A toy `bcrypt.hash`: the hash is the text of the password. -/
def sampleHash (password : JSVal) : Option String := some password.toStr

/-- A store without accounts. -/
def emptyStore (_email : String) : Lookup := Lookup.missing

/-- A store that accepts every document. -/
def acceptInsert (_doc : User) : Bool := true

/-- The number that a run of decimal digits denotes. -/
def digitsValue (digits : List Char) : Nat :=
  digits.foldl (fun n c => 10 * n + (c.toNat - 48)) 0

/-- The span, in milliseconds, that `jsonwebtoken` reads from an `expiresIn`
text made of digits and one of the units `s`, `m`, `h`, `d`, `w`; digits alone
are milliseconds. For the examples. -/
def spanMs (expiresIn : String) : Nat :=
  digitsValue (expiresIn.data.takeWhile isDigit) *
    (match expiresIn.data.dropWhile isDigit with
     | ['s'] => 1000
     | ['m'] => 60000
     | ['h'] => 3600000
     | ['d'] => 86400000
     | ['w'] => 604800000
     | _ => 1)

/-- The toy `jsonwebtoken` with the expiry read from `expiresIn`. -/
def spanJwt : Jwt :=
  { sign := toyJwt.sign
    verify := toyJwt.verify
    expiry := fun expiresIn issuedAt => issuedAt + spanMs expiresIn }

/-- An environment that sets the lifetime of refresh tokens to one day. -/
def dayEnv : Env := { sampleEnv with JWT_REFRESH_TTL := some "1d" }

/-- A store that rejects every update. -/
def rejectUpdates (_update : Update) : Bool := false

/-- A store that performs every update. -/
def acceptUpdates (_update : Update) : Bool := true

/-- The plain object of an account before the transform. -/
def sampleRet : PlainObject :=
  [("_id", JSVal.str "u1"), ("email", JSVal.str "ann@x.com"),
   ("passwordHash", JSVal.str "Aa1!aaaa"), ("role", JSVal.str "client"),
   ("loginAttempts", JSVal.num 5), ("lockUntil", JSVal.num 600000)]

/-- The account `u1` as the store holds it, without a `status` field. -/
def sampleStoredUser : StoredUser :=
  { _id := "u1"
    name := "Ann"
    email := "ann@x.com"
    passwordHash := "Aa1!aaaa"
    role := "client"
    status := StoredStatus.absent
    loginAttempts := 0
    lockUntil := none }

/-- A store that holds one document, found under every id. -/
def storeHolding (doc : StoredUser) (_uid : String) : StoredLookup := StoredLookup.found doc

/-- A store that holds one document, found under its e-mail. -/
def storeByEmail (doc : StoredUser) (email : String) : Option StoredUser :=
  if email = doc.email then some doc else none

/-! # Properties -/

/-! ## The auth middleware -/

/-- C1, as stated, fails: a request with a verified token and a subject, whose
store lookup rejects, is answered 500 `Auth lookup failed`, which is none of
the outcomes the stated order lists. -/
theorem auth_lookup_failure_outside_listed_order :
    auth sampleVerify storeFailing sampleRequest
        = AuthResult.respond 500 "Auth lookup failed" ∧
    ¬ ListedAuthOutcome (auth sampleVerify storeFailing sampleRequest) := by
  have h : auth sampleVerify storeFailing sampleRequest
      = AuthResult.respond 500 "Auth lookup failed" := by decide
  refine ⟨h, ?_⟩
  rw [h]
  simp [ListedAuthOutcome]

/-- C1, amended: the outcome of the auth middleware is decided in this order.
401 `Missing token` exactly when the header has no bearer token; 401
`Invalid or expired token` exactly when there is one and verification fails;
401 `Invalid token: no subject` exactly when verification succeeds and no
subject is resolved; 500 `Auth lookup failed` exactly when a subject is
resolved and the store lookup rejects; 401 `Account not found` exactly when the
lookup finds no account; 403 `Account disabled` exactly when the account found
has a status that, lower-cased, is not `active`; and `next` is called, with the
identity attached, exactly when all of these checks pass. -/
theorem auth_decision_order (verify : String → Option Claims) (findById : String → Lookup)
    (req : Request) :
    (auth verify findById req = AuthResult.respond 401 "Missing token"
        ↔ bearerToken req = none) ∧
    (auth verify findById req = AuthResult.respond 401 "Invalid or expired token"
        ↔ ∃ token, bearerToken req = some token ∧ verify token = none) ∧
    (auth verify findById req = AuthResult.respond 401 "Invalid token: no subject"
        ↔ ∃ token payload, bearerToken req = some token ∧ verify token = some payload
            ∧ subjectId payload = "") ∧
    (auth verify findById req = AuthResult.respond 500 "Auth lookup failed"
        ↔ ∃ token payload, bearerToken req = some token ∧ verify token = some payload
            ∧ subjectId payload ≠ "" ∧ findById (subjectId payload) = Lookup.failed) ∧
    (auth verify findById req = AuthResult.respond 401 "Account not found"
        ↔ ∃ token payload, bearerToken req = some token ∧ verify token = some payload
            ∧ subjectId payload ≠ "" ∧ findById (subjectId payload) = Lookup.missing) ∧
    (auth verify findById req = AuthResult.respond 403 "Account disabled"
        ↔ ∃ token payload user, bearerToken req = some token ∧ verify token = some payload
            ∧ subjectId payload ≠ "" ∧ findById (subjectId payload) = Lookup.found user
            ∧ toLowerCase (orStr user.status "") ≠ "active") ∧
    (∀ ident, auth verify findById req = AuthResult.next ident
        ↔ ∃ token payload user, bearerToken req = some token ∧ verify token = some payload
            ∧ subjectId payload ≠ "" ∧ findById (subjectId payload) = Lookup.found user
            ∧ toLowerCase (orStr user.status "") = "active"
            ∧ ident = { _id := subjectId payload, id := subjectId payload,
                        role := (claimedRole payload).nullish (JSVal.str user.role) }) := by
  cases hT : bearerToken req with
  | none => simp [auth, hT]
  | some token =>
    cases hV : verify token with
    | none => simp [auth, hT, hV]
    | some payload =>
      by_cases hS : subjectId payload = ""
      · simp [auth, hT, hV, hS]
      · cases hF : findById (subjectId payload) with
        | failed => simp [auth, hT, hV, hS, hF]
        | missing => simp [auth, hT, hV, hS, hF]
        | found user =>
          by_cases hD : toLowerCase (orStr user.status "") = "active"
          · simp [auth, hT, hV, hS, hF, isDisabled, hD]
            intro ident
            exact eq_comm
          · simp [auth, hT, hV, hS, hF, isDisabled, hD]

/-- The status gate on loaded documents: for a request whose bearer token
verifies and resolves to the id of a loaded account, the middleware calls
`next` exactly when the loaded status, lower-cased, is `active`, and answers
403 `Account disabled` for every other loaded status, `null` or empty
included. So when the lookup goes from an active status (`before`) to another
one (`after`) between two requests with the same token, the first request
proceeds and the second is answered 403. -/
theorem auth_status_gate (verify : String → Option Claims) (before after : String → Lookup)
    (req : Request) (token : String) (payload : Claims) (userBefore userAfter : User)
    (hT : bearerToken req = some token) (hV : verify token = some payload)
    (hS : subjectId payload ≠ "")
    (hB : before (subjectId payload) = Lookup.found userBefore)
    (hA : after (subjectId payload) = Lookup.found userAfter) :
    (auth verify before req =
        if toLowerCase (orStr userBefore.status "") = "active"
        then AuthResult.next
          { _id := subjectId payload, id := subjectId payload,
            role := (claimedRole payload).nullish (JSVal.str userBefore.role) }
        else AuthResult.respond 403 "Account disabled") ∧
    ((∃ ident, auth verify before req = AuthResult.next ident)
        ↔ toLowerCase (orStr userBefore.status "") = "active") ∧
    (toLowerCase (orStr userBefore.status "") = "active" →
      toLowerCase (orStr userAfter.status "") ≠ "active" →
      (∃ ident, auth verify before req = AuthResult.next ident) ∧
      auth verify after req = AuthResult.respond 403 "Account disabled") := by
  have key : ∀ (f : String → Lookup) (u : User), f (subjectId payload) = Lookup.found u →
      auth verify f req =
        if toLowerCase (orStr u.status "") = "active"
        then AuthResult.next
          { _id := subjectId payload, id := subjectId payload,
            role := (claimedRole payload).nullish (JSVal.str u.role) }
        else AuthResult.respond 403 "Account disabled" := by
    intro f u hF
    by_cases hD : toLowerCase (orStr u.status "") = "active"
    · simp [auth, hT, hV, hS, hF, isDisabled, hD]
    · simp [auth, hT, hV, hS, hF, isDisabled, hD]
  refine ⟨key before userBefore hB, ?_, ?_⟩
  · rw [key before userBefore hB]
    by_cases hD : toLowerCase (orStr userBefore.status "") = "active"
    · simp [hD]
    · simp [hD]
  · intro h1 h2
    rw [key before userBefore hB, key after userAfter hA]
    simp [h1, h2]

/-- The status gate at a concrete request: the token `abc` of account `u1`,
first with the account active in the store, then with it disabled. -/
theorem auth_status_gate_witness :
    bearerToken sampleRequest = some "abc" ∧
    sampleVerify "abc" = some sampleClaims ∧
    subjectId sampleClaims ≠ "" ∧
    (∃ ident, auth sampleVerify storeActive sampleRequest = AuthResult.next ident) ∧
    auth sampleVerify storeDisabled sampleRequest
      = AuthResult.respond 403 "Account disabled" :=
  ⟨by decide, by decide, by decide,
   (auth_status_gate sampleVerify storeActive storeDisabled sampleRequest "abc" sampleClaims
      sampleUser { sampleUser with status := some "disabled" }
      (by decide) (by decide) (by decide) rfl rfl).2.2 (by decide) (by decide)⟩

/-! ## The login route and the lockout -/

/-- The login route treats an account as disabled exactly when it has a
status that is neither empty nor `active`. -/
theorem loginDisabled_iff (user : User) :
    loginDisabled user = true
      ↔ ∃ status, user.status = some status ∧ status ≠ "" ∧ status ≠ "active" := by
  cases h : user.status <;> simp [loginDisabled, h]

/-- Outside the schema: for an account whose loaded status is `null`, a state
that no route writes, not locked and with the right password, the order of the
specification gives 403 (the status is not `active`) and the route answers
200. -/
theorem login_without_status_is_not_refused :
    loginStatusAsStated sampleLib (sampleStore { sampleUser with status := none }) sampleBody 0
      = 403 ∧
    (login sampleLib (sampleStore { sampleUser with status := none }) sampleBody 0).1.status
      = 200 := by
  constructor <;> decide

/-- The answer of `POST /login` on loaded documents, whatever their status:
401 `Invalid credentials` exactly when no account has the normalized e-mail,
or the account is not locked, not disabled and the password does not match;
423 exactly when the account is locked, whatever the password; 403 exactly
when the account is not locked and has a status that is neither empty nor
`active`; and 200 with the access token and `user` (id, name, email, role,
status) exactly when the account is not locked, not disabled in that sense,
and the password matches. -/
theorem login_outcome (lib : Library) (findOne : String → Option User) (body : LoginBody)
    (now : Nat) :
    ((login lib findOne body now).1 = LoginResponse.error 401 "Invalid credentials"
      ↔ findOne (normalizeEmail body.email) = none
        ∨ ∃ user, findOne (normalizeEmail body.email) = some user ∧ isLocked user now = false
            ∧ ¬ (∃ status, user.status = some status ∧ status ≠ "" ∧ status ≠ "active")
            ∧ passwordOk lib user body.password = false) ∧
    ((login lib findOne body now).1 = LoginResponse.error 423 "Account locked. Try again later."
      ↔ ∃ user, findOne (normalizeEmail body.email) = some user ∧ isLocked user now = true) ∧
    ((login lib findOne body now).1 = LoginResponse.message 403 "Account disabled"
      ↔ ∃ user, findOne (normalizeEmail body.email) = some user ∧ isLocked user now = false
          ∧ ∃ status, user.status = some status ∧ status ≠ "" ∧ status ≠ "active") ∧
    (∀ token cookie shown, (login lib findOne body now).1 = LoginResponse.ok token cookie shown
      ↔ ∃ user, findOne (normalizeEmail body.email) = some user ∧ isLocked user now = false
          ∧ ¬ (∃ status, user.status = some status ∧ status ≠ "" ∧ status ≠ "active")
          ∧ passwordOk lib user body.password = true
          ∧ token = issueAccessToken lib user ∧ cookie = issueRefreshToken lib user
          ∧ shown = { id := user._id, name := user.name, email := user.email,
                      role := user.role, status := user.status }) := by
  have e : ∀ user : User,
      (∃ status, user.status = some status ∧ status ≠ "" ∧ status ≠ "active")
        ↔ loginDisabled user = true := fun user => (loginDisabled_iff user).symm
  simp only [e]
  cases hF : findOne (normalizeEmail body.email) with
  | none => simp [login, loginHandler, hF]
  | some user =>
    by_cases hL : isLocked user now = true
    · simp [login, loginHandler, hF, hL]
    · by_cases hDis : loginDisabled user = true
      · simp [login, loginHandler, hF, hL, hDis]
      · by_cases hP : passwordOk lib user body.password = true
        · simp [login, loginHandler, hF, hL, hDis, hP]
          intro token cookie shown
          constructor
          · rintro ⟨h1, h2, h3⟩
            exact ⟨h1.symm, h2.symm, h3.symm⟩
          · rintro ⟨h1, h2, h3⟩
            exact ⟨h1.symm, h2.symm, h3.symm⟩
        · simp [login, loginHandler, hF, hL, hDis, hP]

/-- A login attempt on a locked account leaves the stored document as it is. -/
theorem afterLogin_locked (lib : Library) (user : User) (a : Attempt)
    (h : isLocked user a.now = true) : afterLogin lib user a = user := by
  simp [afterLogin, loginHandler, h]

/-- Login attempts made before the lock ends leave the stored document as it
is. -/
theorem afterLogins_locked (lib : Library) (user : User) (lockUntil : Nat)
    (hLock : user.lockUntil = some lockUntil) (attempts : List Attempt)
    (h : ∀ a ∈ attempts, a.now < lockUntil) : afterLogins lib user attempts = user := by
  induction attempts with
  | nil => rfl
  | cons a rest ih =>
    have ha : isLocked user a.now = true := by
      simp [isLocked, hLock, h a (List.mem_cons_self a rest)]
    have hstep : afterLogins lib user (a :: rest)
        = afterLogins lib (afterLogin lib user a) rest := rfl
    rw [hstep, afterLogin_locked lib user a ha]
    exact ih (fun b hb => h b (List.mem_cons_of_mem a hb))

/-- A failed login on an active account without `lockUntil` counts one
attempt, and locks for ten minutes when the count reaches five. -/
theorem afterLogin_wrong (lib : Library) (user : User) (a : Attempt)
    (hActive : user.status = some "active") (hNone : user.lockUntil = none)
    (hWrong : passwordOk lib user a.password = false) :
    afterLogin lib user a =
      { user with
        loginAttempts := user.loginAttempts + 1
        lockUntil := if user.loginAttempts + 1 ≥ 5 then some (a.now + 600000) else none } := by
  have hD : loginDisabled user = false := by simp [loginDisabled, hActive]
  have hL : isLocked user a.now = false := by simp [isLocked, hNone]
  have hE : lockExpired user a.now = false := by simp [lockExpired, hNone]
  by_cases h5 : user.loginAttempts + 1 ≥ 5
  · simp [afterLogin, loginHandler, hD, hL, hWrong, incLoginAttempts, hE, updateOne, incUpdates,
      MAX_ATTEMPTS, LOCK_TIME_MIN, h5]
  · simp [afterLogin, loginHandler, hD, hL, hWrong, incLoginAttempts, hE, updateOne, incUpdates,
      MAX_ATTEMPTS, LOCK_TIME_MIN, h5, hNone]

/-- Failed logins that keep the count below five only add to the count. -/
theorem afterLogins_wrong (lib : Library) (user : User)
    (hActive : user.status = some "active") (hNone : user.lockUntil = none)
    (attempts : List Attempt) :
    ∀ n, n + attempts.length < 5 →
      (∀ a ∈ attempts, passwordOk lib user a.password = false) →
      afterLogins lib { user with loginAttempts := n } attempts
        = { user with loginAttempts := n + attempts.length } := by
  induction attempts with
  | nil => intro n _ _; rfl
  | cons a rest ih =>
    intro n hn hw
    have hstep : afterLogins lib { user with loginAttempts := n } (a :: rest)
        = afterLogins lib (afterLogin lib { user with loginAttempts := n } a) rest := rfl
    simp only [List.length_cons] at hn
    have h5 : ¬ (n + 1 ≥ 5) := by omega
    rw [hstep, afterLogin_wrong lib { user with loginAttempts := n } a hActive hNone
      (hw a (List.mem_cons_self a rest))]
    have hrest := ih (n + 1) (by omega) (fun b hb => hw b (List.mem_cons_of_mem a hb))
    simp only [h5, if_false, hNone, List.length_cons] at hrest ⊢
    rw [hrest]
    congr 1
    omega

/-- C4: take an active account with `loginAttempts = 0` and no `lockUntil`,
four failed logins `first` and a fifth failed login `fifth`, made at `t`.
After the first `k` of them, `k < 5`, the stored count is `k`, `lockUntil` is
not set and the account is locked at no instant. After the fifth the count is
5 and `lockUntil` is `t` plus ten minutes. Whatever logins `during` follow
before `t` plus ten minutes, with whatever password, the stored document stays
the same, and `isLocked` is true exactly at the instants before `t` plus ten
minutes. -/
theorem lockout_after_five_failures (lib : Library) (user : User) (first : List Attempt)
    (fifth : Attempt) (during : List Attempt)
    (hActive : user.status = some "active") (hZero : user.loginAttempts = 0)
    (hNone : user.lockUntil = none) (hFour : first.length = 4)
    (hWrong : ∀ a ∈ first, passwordOk lib user a.password = false)
    (hWrongFifth : passwordOk lib user fifth.password = false)
    (hDuring : ∀ a ∈ during, a.now < fifth.now + 600000) :
    (∀ k, k < 5 →
      (afterLogins lib user (first.take k)).loginAttempts = k ∧
      (afterLogins lib user (first.take k)).lockUntil = none ∧
      ∀ now, isLocked (afterLogins lib user (first.take k)) now = false) ∧
    (afterLogins lib user (first ++ [fifth])).loginAttempts = 5 ∧
    (afterLogins lib user (first ++ [fifth])).lockUntil = some (fifth.now + 600000) ∧
    afterLogins lib user (first ++ [fifth] ++ during) = afterLogins lib user (first ++ [fifth]) ∧
    (∀ now, isLocked (afterLogins lib user (first ++ [fifth] ++ during)) now = true
      ↔ now < fifth.now + 600000) := by
  have hu : user = { user with loginAttempts := 0 } := by
    cases user; simp_all
  have hk : ∀ k, k < 5 →
      afterLogins lib user (first.take k) = { user with loginAttempts := k } := by
    intro k hk
    have hlen : (first.take k).length = k := by
      rw [List.length_take]; omega
    have := afterLogins_wrong lib user hActive hNone (first.take k) 0 (by omega)
      (fun a ha => hWrong a (List.mem_of_mem_take ha))
    rw [← hu, hlen] at this
    rw [this]; simp
  have h4 : afterLogins lib user first = { user with loginAttempts := 4 } := by
    have := hk 4 (by omega)
    rwa [List.take_of_length_le (by omega)] at this
  have h5 : afterLogins lib user (first ++ [fifth])
      = { user with loginAttempts := 5, lockUntil := some (fifth.now + 600000) } := by
    have : afterLogins lib user (first ++ [fifth])
        = afterLogin lib (afterLogins lib user first) fifth := by
      simp [afterLogins, List.foldl_append]
    have hstep := afterLogin_wrong lib { user with loginAttempts := 4 } fifth hActive hNone
      hWrongFifth
    rw [this, h4, hstep]
    simp
  have hd : afterLogins lib user (first ++ [fifth] ++ during)
      = afterLogins lib user (first ++ [fifth]) := by
    have : afterLogins lib user (first ++ [fifth] ++ during)
        = afterLogins lib (afterLogins lib user (first ++ [fifth])) during := by
      simp [afterLogins, List.foldl_append]
    rw [this]
    exact afterLogins_locked lib _ (fifth.now + 600000) (by rw [h5]) during hDuring
  refine ⟨?_, ?_, ?_, hd, ?_⟩
  · intro k hk5
    rw [hk k hk5]
    refine ⟨rfl, hNone, ?_⟩
    intro now
    simp [isLocked, hNone]
  · rw [h5]
  · rw [h5]
  · intro now
    rw [hd, h5]
    simp [isLocked]

/-- The lockout on `sampleUser`: three failures count three; four failures at
instant 0 and a fifth at second 1 lock until ten minutes and one second; a
right and a wrong password sent during the lock change nothing. -/
theorem lockout_after_five_failures_witness :
    (afterLogins sampleLib sampleUser (List.replicate 3 (wrongAt 0))).loginAttempts = 3 ∧
    (afterLogins sampleLib sampleUser (List.replicate 4 (wrongAt 0) ++ [wrongAt 1000])).lockUntil
      = some 601000 ∧
    (isLocked (afterLogins sampleLib sampleUser
        (List.replicate 4 (wrongAt 0) ++ [wrongAt 1000] ++ [rightAt 2000, wrongAt 600999]))
      600999 = true ↔ 600999 < 1000 + 600000) :=
  have h := lockout_after_five_failures sampleLib sampleUser (List.replicate 4 (wrongAt 0))
    (wrongAt 1000) [rightAt 2000, wrongAt 600999] (by decide) (by decide) (by decide)
    (by decide) (by decide) (by decide) (by decide)
  ⟨(h.1 3 (by decide)).1, h.2.2.1, h.2.2.2.2 600999⟩

/-- C5, the code at a failing input: the account with five counted attempts
and a lock that ended at minute 10 gets a wrong password at 700000 ms. The
lock has expired, the login is answered 401, and the stored document ends
with `loginAttempts = 1` and `lockUntil` = 1300000, so the account is locked
again; the claim has `lockUntil = null` there. -/
theorem expired_lock_failed_login_locks_again :
    lockExpired staleUser 700000 = true ∧
    (loginHandler sampleLib (some staleUser) (JSVal.str "guess") 700000).1
      = LoginResponse.error 401 "Invalid credentials" ∧
    incLoginAttempts staleUser staleUser 700000
      = { staleUser with loginAttempts := 1, lockUntil := some 1300000 } ∧
    afterLogin sampleLib staleUser (wrongAt 700000)
      = { staleUser with loginAttempts := 1, lockUntil := some 1300000 } ∧
    isLocked (afterLogin sampleLib staleUser (wrongAt 700000)) 700000 = true := by
  decide

/-- C6, the code at a failing run: from the fresh account, five failed logins
at instant 0 give five counted attempts and a lock until minute 10; a sixth
failed login at minute 10 sends an update that writes `lockUntil` (minute 20)
and leaves the stored `loginAttempts` at 1, below the threshold. -/
theorem lock_written_below_threshold :
    afterLogins sampleLib sampleUser (List.replicate 5 (wrongAt 0)) = staleUser ∧
    (incUpdates staleUser 600000).setLockUntil = some (some 1200000) ∧
    (afterLogins sampleLib sampleUser
      (List.replicate 5 (wrongAt 0) ++ [wrongAt 600000])).loginAttempts = 1 ∧
    (afterLogins sampleLib sampleUser
      (List.replicate 5 (wrongAt 0) ++ [wrongAt 600000])).lockUntil = some 1200000 := by
  decide

/-- C7: for an account found under the normalized e-mail that is not locked
at the time of the request and whose status is `active`, whatever its stored
`loginAttempts` and `lockUntil`, a login with the right password is answered
200 with the token and the user, and leaves the stored document with
`loginAttempts = 0` and `lockUntil = null`. -/
theorem login_success_resets (lib : Library) (findOne : String → Option User) (body : LoginBody)
    (now : Nat) (user : User)
    (hFound : findOne (normalizeEmail body.email) = some user)
    (hNotLocked : isLocked user now = false)
    (hActive : user.status = some "active")
    (hPassword : passwordOk lib user body.password = true) :
    (login lib findOne body now).1.status = 200 ∧
    (login lib findOne body now).1 =
      LoginResponse.ok (issueAccessToken lib user) (issueRefreshToken lib user)
        { id := user._id, name := user.name, email := user.email, role := user.role,
          status := user.status } ∧
    (login lib findOne body now).2 = some { user with loginAttempts := 0, lockUntil := none } := by
  have hD : loginDisabled user = false := by simp [loginDisabled, hActive]
  simp [login, loginHandler, hFound, hNotLocked, hD, hPassword, LoginResponse.status,
    resetLoginAttempts, updateOne, resetUpdate]

/-- A successful login on the account with five counted attempts, at the
instant its lock ends. -/
theorem login_success_resets_witness :
    isLocked staleUser 600000 = false ∧
    (login sampleLib (sampleStore staleUser) sampleBody 600000).1.status = 200 ∧
    (login sampleLib (sampleStore staleUser) sampleBody 600000).2
      = some { staleUser with loginAttempts := 0, lockUntil := none } :=
  have h := login_success_resets sampleLib (sampleStore staleUser) sampleBody 600000 staleUser
    (by decide) (by decide) (by decide) (by decide)
  ⟨by decide, h.1, h.2.2⟩

/-- C8: `isLocked()` is true exactly when `lockUntil` is set and lies strictly
after the current instant; it is false when `lockUntil` is the current instant
and when `lockUntil` is null, and it does not depend on `loginAttempts`. -/
theorem isLocked_iff (user : User) (now : Nat) :
    (isLocked user now = true
      ↔ ∃ lockUntil, user.lockUntil = some lockUntil ∧ now < lockUntil) ∧
    isLocked { user with lockUntil := some now } now = false ∧
    isLocked { user with lockUntil := none } now = false ∧
    (∀ attempts, isLocked { user with loginAttempts := attempts } now = isLocked user now) := by
  refine ⟨?_, ?_, ?_, ?_⟩
  · cases h : user.lockUntil <;> simp [isLocked, h]
  · simp [isLocked]
  · simp [isLocked]
  · intro attempts; rfl

/-! ## The password policy -/

/-- The validator examines the text of a string as it is. -/
theorem candidateText_str (s : String) : candidateText (JSVal.str s) = s := by
  by_cases h : s = "" <;> simp [candidateText, JSVal.or, JSVal.truthy, JSVal.toStr, h]

/-- The validator reports the first rule, in the fixed order, that the text
violates, and `null` when there is none. -/
theorem validatePassword_by_rules (pw : JSVal) :
    validatePassword pw =
      if PasswordRule.length.violatedBy (candidateText pw) then some PasswordRule.length.reason
      else if PasswordRule.lowercase.violatedBy (candidateText pw) then
        some PasswordRule.lowercase.reason
      else if PasswordRule.uppercase.violatedBy (candidateText pw) then
        some PasswordRule.uppercase.reason
      else if PasswordRule.digit.violatedBy (candidateText pw) then some PasswordRule.digit.reason
      else if PasswordRule.special.violatedBy (candidateText pw) then
        some PasswordRule.special.reason
      else if PasswordRule.whitespace.violatedBy (candidateText pw) then
        some PasswordRule.whitespace.reason
      else none := by
  simp [validatePassword, PasswordRule.violatedBy, PasswordRule.reason, candidateText, MIN, MAX]

/-- C9, as stated, fails: `Abcdefg1_` has 9 characters, a lowercase letter, an
uppercase letter, a digit, a character that is neither alphanumeric nor white
space (the underscore) and no white space, and the validator rejects it with
`Include a special character`. -/
theorem underscore_is_not_special :
    MeetsPolicyAsStated "Abcdefg1_" ∧
    validatePassword (JSVal.str "Abcdefg1_") = some "Include a special character" ∧
    ¬ (validatePassword (JSVal.str "Abcdefg1_") = none ↔ MeetsPolicyAsStated "Abcdefg1_") := by
  have h1 : MeetsPolicyAsStated "Abcdefg1_" := by unfold MeetsPolicyAsStated; decide
  have h2 : validatePassword (JSVal.str "Abcdefg1_") = some "Include a special character" := by
    decide
  refine ⟨h1, h2, ?_⟩
  intro h
  have h3 := h.mpr h1
  rw [h2] at h3
  cases h3

/-- C9, amended: `validatePassword` returns `null` exactly when the length of
the candidate is in 8..64, it has a lowercase letter, an uppercase letter and
a digit, it has a character that is neither a word character (ASCII letter,
ASCII digit, underscore) nor white space, and it has no white space. The
candidate is the text `String(pw || "")`, which for a string is the string
itself. -/
theorem validatePassword_null_iff (pw : JSVal) (s : String) :
    (validatePassword pw = none ↔ MeetsPolicy (candidateText pw)) ∧
    (validatePassword (JSVal.str s) = none ↔ MeetsPolicy s) := by
  have key : ∀ v : JSVal, validatePassword v = none ↔ MeetsPolicy (candidateText v) := by
    intro v
    unfold validatePassword MeetsPolicy candidateText MIN MAX
    simp only []
    split_ifs <;> simp_all
    omega
  refine ⟨key pw, ?_⟩
  have h := key (JSVal.str s)
  rwa [candidateText_str] at h

/-- C10: when the candidate violates at least one rule, the validator returns
the reason of the first violated rule in the order length, lowercase,
uppercase, digit, special, whitespace: the rule reported is violated, no
violated rule comes before it, and this holds also when several rules are
violated. -/
theorem validatePassword_reports_first_violation (pw : JSVal)
    (hSome : ∃ rule : PasswordRule, rule.violatedBy (candidateText pw) = true) :
    ∃ first : PasswordRule,
      first.violatedBy (candidateText pw) = true ∧
      (∀ rule : PasswordRule, rule.violatedBy (candidateText pw) = true →
        first.order ≤ rule.order) ∧
      validatePassword pw = some first.reason := by
  rw [validatePassword_by_rules]
  by_cases h0 : PasswordRule.length.violatedBy (candidateText pw) = true
  · exact ⟨PasswordRule.length, h0, fun r _ => by cases r <;> simp [PasswordRule.order],
      by simp [h0]⟩
  by_cases h1 : PasswordRule.lowercase.violatedBy (candidateText pw) = true
  · exact ⟨PasswordRule.lowercase, h1,
      fun r hr => by cases r <;> simp_all [PasswordRule.order], by simp [h0, h1]⟩
  by_cases h2 : PasswordRule.uppercase.violatedBy (candidateText pw) = true
  · exact ⟨PasswordRule.uppercase, h2,
      fun r hr => by cases r <;> simp_all [PasswordRule.order], by simp [h0, h1, h2]⟩
  by_cases h3 : PasswordRule.digit.violatedBy (candidateText pw) = true
  · exact ⟨PasswordRule.digit, h3,
      fun r hr => by cases r <;> simp_all [PasswordRule.order], by simp [h0, h1, h2, h3]⟩
  by_cases h4 : PasswordRule.special.violatedBy (candidateText pw) = true
  · exact ⟨PasswordRule.special, h4,
      fun r hr => by cases r <;> simp_all [PasswordRule.order], by simp [h0, h1, h2, h3, h4]⟩
  by_cases h5 : PasswordRule.whitespace.violatedBy (candidateText pw) = true
  · exact ⟨PasswordRule.whitespace, h5,
      fun r hr => by cases r <;> simp_all [PasswordRule.order],
      by simp [h0, h1, h2, h3, h4, h5]⟩
  obtain ⟨r, hr⟩ := hSome
  cases r <;> simp_all

/-- The candidate `abcdefgh` violates the uppercase, digit and special rules
at once; the reason returned is that of the uppercase rule. -/
theorem validatePassword_reports_first_violation_witness :
    PasswordRule.uppercase.violatedBy (candidateText (JSVal.str "abcdefgh")) = true ∧
    PasswordRule.digit.violatedBy (candidateText (JSVal.str "abcdefgh")) = true ∧
    validatePassword (JSVal.str "abcdefgh") = some "Include an uppercase letter" ∧
    ∃ first : PasswordRule,
      first.violatedBy (candidateText (JSVal.str "abcdefgh")) = true ∧
      (∀ rule : PasswordRule, rule.violatedBy (candidateText (JSVal.str "abcdefgh")) = true →
        first.order ≤ rule.order) ∧
      validatePassword (JSVal.str "abcdefgh") = some first.reason :=
  ⟨by decide, by decide, by decide,
   validatePassword_reports_first_violation (JSVal.str "abcdefgh")
     ⟨PasswordRule.uppercase, by decide⟩⟩

/-! ## The attached identity and the role guard -/

/-- For a truthy value `v`, `v ?? fallback` is `v`. -/
theorem nullish_of_truthy (v fallback : JSVal) (h : v.truthy = true) :
    v.nullish fallback = v := by
  cases v <;> simp_all [JSVal.truthy, JSVal.nullish]

/-- The role claim read from a token is truthy or `undefined`. -/
theorem claimedRole_truthy_or_undefined (payload : Claims) :
    (claimedRole payload).truthy = true ∨ claimedRole payload = JSVal.undefined := by
  unfold claimedRole JSVal.or
  cases hr : payload.role.truthy <;> cases hq : payload.r.truthy <;> simp [hr, hq]

/-- The attached role `role ?? user.role`: the role claim when it is truthy,
the fallback otherwise. -/
theorem nullish_claimedRole (payload : Claims) (fallback : JSVal) :
    (claimedRole payload).nullish fallback
      = if (claimedRole payload).truthy then claimedRole payload else fallback := by
  rcases claimedRole_truthy_or_undefined payload with h | h
  · simp [h, nullish_of_truthy _ fallback h]
  · simp [h, JSVal.truthy, JSVal.nullish]

/-- A request with a verified token, a subject, and an account found with an
active status passes, with the identity attached. -/
theorem auth_next_of_active (verify : String → Option Claims) (findById : String → Lookup)
    (req : Request) (token : String) (payload : Claims) (user : User)
    (hT : bearerToken req = some token) (hV : verify token = some payload)
    (hS : subjectId payload ≠ "") (hF : findById (subjectId payload) = Lookup.found user)
    (hActive : toLowerCase (orStr user.status "") = "active") :
    auth verify findById req = AuthResult.next
      { _id := subjectId payload, id := subjectId payload,
        role := (claimedRole payload).nullish (JSVal.str user.role) } := by
  simp [auth, hT, hV, hS, hF, isDisabled, hActive]

/-- C11, as stated, fails: two verified tokens of the same active account
`u1`, stored role `client`, one with the role claim `client` and one with the
role claim `admin`. The middleware attaches `client` to the first request and
`admin` to the second, and the gate `requireRole("admin")` answers 403 to the
first and calls `next` for the second. -/
theorem token_role_claim_changes_gate :
    sampleVerifyRoles "abc" = some sampleClaims ∧
    sampleVerifyRoles "adm" = some sampleAdminClaims ∧
    subjectId sampleClaims = subjectId sampleAdminClaims ∧
    storeActive (subjectId sampleClaims) = Lookup.found sampleUser ∧
    sampleUser.role = "client" ∧
    auth sampleVerifyRoles storeActive sampleRequest
      = AuthResult.next { _id := "u1", id := "u1", role := JSVal.str "client" } ∧
    auth sampleVerifyRoles storeActive sampleAdminRequest
      = AuthResult.next { _id := "u1", id := "u1", role := JSVal.str "admin" } ∧
    authThenRequireRole sampleVerifyRoles storeActive (JSVal.str "admin") sampleRequest
      = GateResult.respond 403 "Forbidden" ∧
    authThenRequireRole sampleVerifyRoles storeActive (JSVal.str "admin") sampleAdminRequest
      = GateResult.next := by
  decide

/-- C11, amended: for an active account and two verified tokens with the same
subject, the middleware attaches to each request the role claim of its token
when the token carries one, and the stored role only otherwise. Two tokens
with the same role claim (or both without one) get the same identity and the
same outcome of every `requireRole` gate; the outcome of the gate is decided
by the attached role, so by the role claim when there is one. -/
theorem auth_role_from_claim_else_store (verify : String → Option Claims)
    (findById : String → Lookup) (first second : Request) (token1 token2 : String)
    (payload1 payload2 : Claims) (user : User) (expected : JSVal)
    (hT1 : bearerToken first = some token1) (hV1 : verify token1 = some payload1)
    (hT2 : bearerToken second = some token2) (hV2 : verify token2 = some payload2)
    (hSame : subjectId payload1 = subjectId payload2) (hS : subjectId payload1 ≠ "")
    (hF : findById (subjectId payload1) = Lookup.found user)
    (hActive : toLowerCase (orStr user.status "") = "active") :
    auth verify findById first = AuthResult.next
      { _id := subjectId payload1, id := subjectId payload1,
        role := if (claimedRole payload1).truthy then claimedRole payload1
                else JSVal.str user.role } ∧
    auth verify findById second = AuthResult.next
      { _id := subjectId payload1, id := subjectId payload1,
        role := if (claimedRole payload2).truthy then claimedRole payload2
                else JSVal.str user.role } ∧
    (claimedRole payload1 = claimedRole payload2 →
      auth verify findById first = auth verify findById second ∧
      authThenRequireRole verify findById expected first
        = authThenRequireRole verify findById expected second) ∧
    authThenRequireRole verify findById expected first
      = (if ((if (claimedRole payload1).truthy then claimedRole payload1
              else JSVal.str user.role).strictEq expected) then GateResult.next
         else GateResult.respond 403 "Forbidden") := by
  have hrole : ∀ p : Claims, (claimedRole p).nullish (JSVal.str user.role)
      = if (claimedRole p).truthy then claimedRole p else JSVal.str user.role :=
    fun p => nullish_claimedRole p (JSVal.str user.role)
  have h1 := auth_next_of_active verify findById first token1 payload1 user hT1 hV1 hS hF hActive
  have h2 := auth_next_of_active verify findById second token2 payload2 user hT2 hV2
    (hSame ▸ hS) (hSame ▸ hF) hActive
  rw [hrole] at h1 h2
  rw [← hSame] at h2
  refine ⟨h1, h2, ?_, ?_⟩
  · intro hEq
    have h12 : auth verify findById first = auth verify findById second := by
      rw [h1, h2, hEq]
    refine ⟨h12, ?_⟩
    simp only [authThenRequireRole, h1, h2, requireRole, hEq]
  · simp only [authThenRequireRole, h1, requireRole]
    cases (if (claimedRole payload1).truthy then claimedRole payload1
        else JSVal.str user.role).strictEq expected <;> simp

/-- The role gate `requireRole("admin")` on the request with the token `abc`,
whose role claim is `client`. -/
theorem auth_role_from_claim_else_store_witness :
    bearerToken sampleRequest = some "abc" ∧ bearerToken sampleAdminRequest = some "adm" ∧
    subjectId sampleClaims = subjectId sampleAdminClaims ∧
    authThenRequireRole sampleVerifyRoles storeActive (JSVal.str "admin") sampleRequest
      = (if ((if (claimedRole sampleClaims).truthy then claimedRole sampleClaims
              else JSVal.str sampleUser.role).strictEq (JSVal.str "admin")) then GateResult.next
         else GateResult.respond 403 "Forbidden") :=
  ⟨by decide, by decide, by decide,
   (auth_role_from_claim_else_store sampleVerifyRoles storeActive sampleRequest
      sampleAdminRequest "abc" "adm" sampleClaims sampleAdminClaims sampleUser
      (JSVal.str "admin") (by decide) (by decide) (by decide) (by decide) (by decide)
      (by decide) (by decide) (by decide)).2.2.2⟩

/-- C12: when the middleware calls `next`, a token was verified and an
account found, the attached `_id` and `id` are both the resolved subject (a
string), and the attached role is the role claim of the token when it carries
one (the claim `role` when it is truthy, else the claim `r` when that is
truthy) and the stored role of the account otherwise. -/
theorem auth_attached_identity (verify : String → Option Claims) (findById : String → Lookup)
    (req : Request) (ident : Identity)
    (hPass : auth verify findById req = AuthResult.next ident) :
    ∃ token payload user,
      bearerToken req = some token ∧ verify token = some payload ∧
      findById (subjectId payload) = Lookup.found user ∧
      ident._id = subjectId payload ∧ ident.id = subjectId payload ∧
      (payload.role.truthy = true → ident.role = payload.role) ∧
      (payload.role.truthy = false → payload.r.truthy = true → ident.role = payload.r) ∧
      (payload.role.truthy = false → payload.r.truthy = false →
        ident.role = JSVal.str user.role) := by
  cases hT : bearerToken req with
  | none => simp [auth, hT] at hPass
  | some token =>
    cases hV : verify token with
    | none => simp [auth, hT, hV] at hPass
    | some payload =>
      by_cases hS : subjectId payload = ""
      · simp [auth, hT, hV, hS] at hPass
      · cases hF : findById (subjectId payload) with
        | failed => simp [auth, hT, hV, hS, hF] at hPass
        | missing => simp [auth, hT, hV, hS, hF] at hPass
        | found user =>
          by_cases hD : isDisabled user = true
          · simp [auth, hT, hV, hS, hF, hD] at hPass
          · simp [auth, hT, hV, hS, hF, hD] at hPass
            refine ⟨token, payload, user, rfl, hV, hF, ?_⟩
            subst hPass
            rw [nullish_claimedRole]
            refine ⟨rfl, rfl, ?_, ?_, ?_⟩
            · intro hr
              simp [claimedRole, JSVal.or, hr]
            · intro hr hq
              simp [claimedRole, JSVal.or, hr, hq]
            · intro hr hq
              have hu : claimedRole payload = JSVal.undefined := by
                simp [claimedRole, JSVal.or, hr, hq]
              rw [hu]
              rfl

/-- The identity attached for the token `adm` of the account `u1`. -/
theorem auth_attached_identity_witness :
    auth sampleVerifyRoles storeActive sampleAdminRequest
      = AuthResult.next { _id := "u1", id := "u1", role := JSVal.str "admin" } ∧
    ∃ token payload user,
      bearerToken sampleAdminRequest = some token ∧ sampleVerifyRoles token = some payload ∧
      storeActive (subjectId payload) = Lookup.found user ∧
      (({ _id := "u1", id := "u1", role := JSVal.str "admin" } : Identity)._id
        = subjectId payload) ∧
      (({ _id := "u1", id := "u1", role := JSVal.str "admin" } : Identity).id
        = subjectId payload) ∧
      (payload.role.truthy = true →
        ({ _id := "u1", id := "u1", role := JSVal.str "admin" } : Identity).role
          = payload.role) ∧
      (payload.role.truthy = false → payload.r.truthy = true →
        ({ _id := "u1", id := "u1", role := JSVal.str "admin" } : Identity).role = payload.r) ∧
      (payload.role.truthy = false → payload.r.truthy = false →
        ({ _id := "u1", id := "u1", role := JSVal.str "admin" } : Identity).role
          = JSVal.str user.role) :=
  ⟨by decide,
   auth_attached_identity sampleVerifyRoles storeActive sampleAdminRequest
     { _id := "u1", id := "u1", role := JSVal.str "admin" } (by decide)⟩

/-- C13, as stated, fails: a verified token whose claim `id` is present and is
the empty array `[]` is answered 401 `Invalid token: no subject`, because
`String([])` is the empty text. -/
theorem empty_array_subject_is_refused :
    emptyArrayClaims.id ≠ JSVal.undefined ∧ emptyArrayClaims.id.truthy = true ∧
    bearerToken sampleRequest = some "abc" ∧
    sampleVerifyArray "abc" = some emptyArrayClaims ∧
    auth sampleVerifyArray storeActive sampleRequest
      = AuthResult.respond 401 "Invalid token: no subject" := by
  decide

/-- C13, amended: for a verified payload the subject is the text of the first
of the claims `id`, `_id`, `sub` that is present (truthy), in that order; the
request is answered 401 `Invalid token: no subject` exactly when that text is
empty, which is when none of the three is present or the one read has an
empty text (an empty array). -/
theorem subject_precedence (verify : String → Option Claims) (findById : String → Lookup)
    (req : Request) (token : String) (payload : Claims)
    (hT : bearerToken req = some token) (hV : verify token = some payload) :
    (payload.id.truthy = true → subjectId payload = payload.id.toStr) ∧
    (payload.id.truthy = false → payload._id.truthy = true →
      subjectId payload = payload._id.toStr) ∧
    (payload.id.truthy = false → payload._id.truthy = false → payload.sub.truthy = true →
      subjectId payload = payload.sub.toStr) ∧
    (auth verify findById req = AuthResult.respond 401 "Invalid token: no subject"
      ↔ subjectId payload = "") ∧
    (subjectId payload = ""
      ↔ (payload.id.truthy = false ∧ payload._id.truthy = false ∧ payload.sub.truthy = false)
        ∨ (subjectClaim payload).toStr = "") := by
  refine ⟨?_, ?_, ?_, ?_, ?_⟩
  · intro h1
    simp [subjectId, JSVal.or, h1]
  · intro h1 h2
    simp [subjectId, JSVal.or, h1, h2]
  · intro h1 h2 h3
    simp [subjectId, JSVal.or, h1, h2, h3]
  · by_cases hS : subjectId payload = ""
    · simp [auth, hT, hV, hS]
    · cases hF : findById (subjectId payload) with
      | failed => simp [auth, hT, hV, hS, hF]
      | missing => simp [auth, hT, hV, hS, hF]
      | found user =>
        by_cases hD : isDisabled user = true
        · simp [auth, hT, hV, hS, hF, hD]
        · simp [auth, hT, hV, hS, hF, hD]
  · cases h1 : payload.id.truthy <;> cases h2 : payload._id.truthy <;>
      cases h3 : payload.sub.truthy <;>
      simp [subjectId, subjectClaim, JSVal.or, h1, h2, h3, JSVal.toStr]

/-- The subject of the token `abc` is its claim `id`, and the request is not
refused for its subject. -/
theorem subject_precedence_witness :
    bearerToken sampleRequest = some "abc" ∧ sampleVerify "abc" = some sampleClaims ∧
    subjectId sampleClaims = "u1" ∧
    (auth sampleVerify storeActive sampleRequest
        = AuthResult.respond 401 "Invalid token: no subject"
      ↔ subjectId sampleClaims = "") :=
  have h := subject_precedence sampleVerify storeActive sampleRequest "abc" sampleClaims
    (by decide) (by decide)
  ⟨by decide, by decide, h.1 (by decide), h.2.2.2.1⟩

/-- C14: two requests whose bearer tokens fail verification, for whatever
reasons, get the same answer, 401 `Invalid or expired token`, whatever the
stores hold, and the middleware makes no store lookup for them. -/
theorem failed_verification_is_uniform
    (verify1 verify2 : String → Except JwtError Claims) (findById1 findById2 : String → Lookup)
    (req1 req2 : Request) (token1 token2 : String) (reason1 reason2 : JwtError)
    (hT1 : bearerToken req1 = some token1) (hE1 : verify1 token1 = Except.error reason1)
    (hT2 : bearerToken req2 = some token2) (hE2 : verify2 token2 = Except.error reason2) :
    auth (caught verify1) findById1 req1
      = AuthResult.respond 401 "Invalid or expired token" ∧
    auth (caught verify2) findById2 req2 = auth (caught verify1) findById1 req1 ∧
    authLookups (caught verify1) req1 = [] ∧ authLookups (caught verify2) req2 = [] := by
  simp [auth, authLookups, caught, hT1, hE1, hT2, hE2]

/-- An expired token and a token with a bad signature, against two different
stores. -/
theorem failed_verification_is_uniform_witness :
    auth (caught expiredVerifier) storeActive sampleRequest
      = AuthResult.respond 401 "Invalid or expired token" ∧
    auth (caught forgedVerifier) storeFailing sampleAdminRequest
      = auth (caught expiredVerifier) storeActive sampleRequest ∧
    authLookups (caught expiredVerifier) sampleRequest = [] ∧
    authLookups (caught forgedVerifier) sampleAdminRequest = [] :=
  failed_verification_is_uniform expiredVerifier forgedVerifier storeActive storeFailing
    sampleRequest sampleAdminRequest "abc" "adm" JwtError.expired JwtError.badSignature
    (by decide) rfl (by decide) rfl

/-- A value is strictly equal to a string exactly when it is that string. -/
theorem strictEq_str (v : JSVal) (s : String) :
    v.strictEq (JSVal.str s) = true ↔ v = JSVal.str s := by
  cases v <;> simp [JSVal.strictEq]

/-- C16: the handler of `requireRole(expected)` calls `next` exactly when the
request carries an identity whose role is strictly equal to `expected` (for a
string: the role is that very string); in every other case it answers 403
`Forbidden`; and it reads nothing of the request but the attached identity. -/
theorem requireRole_iff (expected : JSVal) (role : String) (req : GuardedRequest) :
    (requireRole expected req = GateResult.next
      ↔ ∃ ident, req.user = some ident ∧ ident.role.strictEq expected = true) ∧
    (requireRole (JSVal.str role) req = GateResult.next
      ↔ ∃ ident, req.user = some ident ∧ ident.role = JSVal.str role) ∧
    (requireRole expected req = GateResult.next
      ∨ requireRole expected req = GateResult.respond 403 "Forbidden") ∧
    (∀ headers, requireRole expected { req with headers := headers }
      = requireRole expected req) := by
  have key : ∀ e : JSVal, requireRole e req = GateResult.next
      ↔ ∃ ident, req.user = some ident ∧ ident.role.strictEq e = true := by
    intro e
    cases hU : req.user with
    | none => simp [requireRole, hU]
    | some ident =>
      cases hE : ident.role.strictEq e <;> simp [requireRole, hU, hE]
  refine ⟨key expected, ?_, ?_, ?_⟩
  · rw [key (JSVal.str role)]
    simp only [strictEq_str]
  · cases hU : req.user with
    | none => simp [requireRole, hU]
    | some ident =>
      cases hE : ident.role.strictEq expected <;> simp [requireRole, hU, hE]
  · intro headers
    rfl

/-! ## Token classes, the refresh route and the signup route -/

/-- C15: let the two secrets differ and let `jsonwebtoken` be sound for the
two payloads of the account. Then a request that carries the refresh token as
bearer token is answered 401 `Invalid or expired token` by the auth
middleware, the access token sent as refresh cookie is answered 401
`Invalid refresh` by `POST /refresh`, and before its expiry each token is
accepted by the verifier of its own class, which returns its payload. -/
theorem cross_class_tokens_rejected (jwt : Jwt) (compare : String → String → Bool) (env : Env)
    (user : User) (issuedAt now : Nat) (findById : String → Lookup)
    (findByIdRefresh : JSVal → Lookup) (req : Request)
    (hSecrets : env.JWT_SECRET ≠ env.JWT_REFRESH_SECRET)
    (hAccess : jwt.SoundFor [env.JWT_SECRET, env.JWT_REFRESH_SECRET] (accessClaims user)
      (accessTtl env) issuedAt now)
    (hRefresh : jwt.SoundFor [env.JWT_SECRET, env.JWT_REFRESH_SECRET] (refreshClaims user)
      (refreshTtl env) issuedAt now)
    (hBearer : bearerToken req
      = some (issueRefreshToken (envLibrary jwt compare env issuedAt) user))
    (hNonempty : issueAccessToken (envLibrary jwt compare env issuedAt) user ≠ "") :
    auth (verifyAccess jwt env now) findById req
      = AuthResult.respond 401 "Invalid or expired token" ∧
    refresh (envLibrary jwt compare env now) (verifyRefresh jwt env now) findByIdRefresh
        (some (issueAccessToken (envLibrary jwt compare env issuedAt) user))
      = RefreshResponse.error 401 "Invalid refresh" ∧
    (now < jwt.expiry (accessTtl env) issuedAt →
      verifyAccess jwt env now (issueAccessToken (envLibrary jwt compare env issuedAt) user)
        = some (accessClaims user)) ∧
    (now < jwt.expiry (refreshTtl env) issuedAt →
      verifyRefresh jwt env now (issueRefreshToken (envLibrary jwt compare env issuedAt) user)
        = some (refreshClaims user)) := by
  have hR : verifyAccess jwt env now
      (issueRefreshToken (envLibrary jwt compare env issuedAt) user) = none :=
    hRefresh.2 env.JWT_REFRESH_SECRET (by simp) env.JWT_SECRET (by simp) (Ne.symm hSecrets)
  have hA : verifyRefresh jwt env now
      (issueAccessToken (envLibrary jwt compare env issuedAt) user) = none :=
    hAccess.2 env.JWT_SECRET (by simp) env.JWT_REFRESH_SECRET (by simp) hSecrets
  refine ⟨?_, ?_, ?_, ?_⟩
  · simp [auth, hBearer, hR]
  · simp [refresh, hNonempty, hA]
  · intro hFresh
    exact hAccess.1 env.JWT_SECRET (by simp) hFresh
  · intro hFresh
    exact hRefresh.1 env.JWT_REFRESH_SECRET (by simp) hFresh

/-- The two tokens of `sampleUser` under the toy library, each sent to the
other class. -/
theorem cross_class_tokens_rejected_witness :
    issueRefreshToken (envLibrary toyJwt sampleCompare sampleEnv 0) sampleUser
      = "s-refresh.u1.undefined.7d" ∧
    issueAccessToken (envLibrary toyJwt sampleCompare sampleEnv 0) sampleUser
      = "s-access.u1.client.15m" ∧
    auth (verifyAccess toyJwt sampleEnv 1000) storeActive sampleRefreshBearer
      = AuthResult.respond 401 "Invalid or expired token" ∧
    refresh (envLibrary toyJwt sampleCompare sampleEnv 1000) (verifyRefresh toyJwt sampleEnv 1000)
        (storeById sampleUser)
        (some (issueAccessToken (envLibrary toyJwt sampleCompare sampleEnv 0) sampleUser))
      = RefreshResponse.error 401 "Invalid refresh" :=
  have h := cross_class_tokens_rejected toyJwt sampleCompare sampleEnv sampleUser 0 1000
    storeActive (storeById sampleUser) sampleRefreshBearer (by decide)
    (by unfold Jwt.SoundFor; decide) (by unfold Jwt.SoundFor; decide) (by decide) (by decide)
  ⟨by decide, by decide, h.1, h.2.1⟩

/-- C19: when the refresh cookie is absent (or empty), or its value fails
verification, or the store has no account for its subject, `POST /refresh`
answers 401, with no token in the body and no refresh cookie set. -/
theorem refresh_rejections (lib : Library) (verify : String → Option Claims)
    (findById : JSVal → Lookup) (cookie : Option String)
    (hRejected : cookie = none ∨ cookie = some ""
      ∨ (∃ token, cookie = some token ∧ verify token = none)
      ∨ (∃ token payload, cookie = some token ∧ verify token = some payload
          ∧ findById payload.id = Lookup.missing)) :
    (refresh lib verify findById cookie).status = 401 ∧
    (refresh lib verify findById cookie).token = none ∧
    (refresh lib verify findById cookie).cookie = none ∧
    (refresh lib verify findById cookie = RefreshResponse.error 401 "Missing refresh"
      ∨ refresh lib verify findById cookie = RefreshResponse.error 401 "Invalid refresh") := by
  rcases hRejected with h | h | ⟨token, h, hV⟩ | ⟨token, payload, h, hV, hF⟩
  · simp [refresh, h, RefreshResponse.status, RefreshResponse.token, RefreshResponse.cookie]
  · simp [refresh, h, RefreshResponse.status, RefreshResponse.token, RefreshResponse.cookie]
  · by_cases hE : token = "" <;>
      simp [refresh, h, hV, hE, RefreshResponse.status, RefreshResponse.token,
        RefreshResponse.cookie]
  · by_cases hE : token = "" <;>
      simp [refresh, h, hV, hF, hE, RefreshResponse.status, RefreshResponse.token,
        RefreshResponse.cookie]

/-- A tampered cookie value is answered 401 without token or cookie. -/
theorem refresh_rejections_witness :
    sampleVerifyRefresh "tampered" = none ∧
    (refresh sampleLib sampleVerifyRefresh (storeById sampleUser) (some "tampered")).status
      = 401 ∧
    (refresh sampleLib sampleVerifyRefresh (storeById sampleUser) (some "tampered")).token
      = none ∧
    (refresh sampleLib sampleVerifyRefresh (storeById sampleUser) (some "tampered")).cookie
      = none :=
  have h := refresh_rejections sampleLib sampleVerifyRefresh (storeById sampleUser)
    (some "tampered") (Or.inr (Or.inr (Or.inl ⟨"tampered", rfl, by decide⟩)))
  ⟨by decide, h.1, h.2.1, h.2.2.1⟩

/-- C20, as stated, fails: a verified refresh token of an account whose status
is `disabled` is answered 403 `Account disabled`, not 401. -/
theorem refresh_disabled_is_403_not_401 :
    sampleVerifyRefresh "rrr" = some (refreshClaims sampleUser) ∧
    storeById { sampleUser with status := some "disabled" } (refreshClaims sampleUser).id
      = Lookup.found { sampleUser with status := some "disabled" } ∧
    refresh sampleLib sampleVerifyRefresh
        (storeById { sampleUser with status := some "disabled" }) (some "rrr")
      = RefreshResponse.error 403 "Account disabled" ∧
    (refresh sampleLib sampleVerifyRefresh
        (storeById { sampleUser with status := some "disabled" }) (some "rrr")).status
      ≠ 401 := by
  decide

/-- C20, amended: a verified refresh token of an account whose status is
`disabled` is answered 403 `Account disabled`, with no access token in the
body and no refresh cookie set. -/
theorem refresh_disabled (lib : Library) (verify : String → Option Claims)
    (findById : JSVal → Lookup) (token : String) (payload : Claims) (user : User)
    (hToken : token ≠ "") (hV : verify token = some payload)
    (hF : findById payload.id = Lookup.found user)
    (hDisabled : user.status = some "disabled") :
    refresh lib verify findById (some token) = RefreshResponse.error 403 "Account disabled" ∧
    (refresh lib verify findById (some token)).status = 403 ∧
    (refresh lib verify findById (some token)).token = none ∧
    (refresh lib verify findById (some token)).cookie = none := by
  have hD : refreshDisabled user = true := by simp [refreshDisabled, hDisabled]
  simp [refresh, hToken, hV, hF, hD, RefreshResponse.status, RefreshResponse.token,
    RefreshResponse.cookie]

/-- The refresh token `rrr` of `sampleUser` after the account was disabled. -/
theorem refresh_disabled_witness :
    (refresh sampleLib sampleVerifyRefresh
        (storeById { sampleUser with status := some "disabled" }) (some "rrr")).status = 403 ∧
    (refresh sampleLib sampleVerifyRefresh
        (storeById { sampleUser with status := some "disabled" }) (some "rrr")).token = none :=
  have h := refresh_disabled sampleLib sampleVerifyRefresh
    (storeById { sampleUser with status := some "disabled" }) "rrr" (refreshClaims sampleUser)
    { sampleUser with status := some "disabled" } (by decide) (by decide) (by decide) rfl
  ⟨h.2.1, h.2.2.1⟩

/-- The role a signup stores is the requested one when that is `client` or
`model`, and `client` otherwise. -/
theorem signupRole_cases (role : JSVal) :
    (role = JSVal.str "client" → signupRole role = "client") ∧
    (role = JSVal.str "model" → signupRole role = "model") ∧
    (role ≠ JSVal.str "client" → role ≠ JSVal.str "model" → signupRole role = "client") ∧
    (signupRole role = "client" ∨ signupRole role = "model") := by
  unfold signupRole
  by_cases hu : role = JSVal.undefined
  · subst hu; simp [JSVal.toStr]
  · by_cases hc : role = JSVal.str "client"
    · subst hc; simp [JSVal.toStr]
    · by_cases hm : role = JSVal.str "model"
      · subst hm; simp [JSVal.toStr]
      · simp [hu, hc, hm]

/-- C17: when a signup succeeds, an account was created, its role is the role
shown in the response, and that role is `client` or `model`, never `admin`:
the requested role when the body asks for `client` or `model`, and `client`
for every other value of `role` in the body. -/
theorem signup_role_is_client_or_model (lib : Library) (hash : JSVal → Option String)
    (findOne : String → Lookup) (newId : String) (insert : User → Bool) (body : SignupBody)
    (token refreshCookie : String) (shown : SignupUser)
    (hOk : (signup lib hash findOne newId insert body).response
      = SignupResponse.ok token refreshCookie shown) :
    ∃ user, (signup lib hash findOne newId insert body).created = some user ∧
      shown.role = user.role ∧
      (user.role = "client" ∨ user.role = "model") ∧ user.role ≠ "admin" ∧
      (body.role = JSVal.str "client" → user.role = "client") ∧
      (body.role = JSVal.str "model" → user.role = "model") ∧
      (body.role ≠ JSVal.str "client" → body.role ≠ JSVal.str "model" →
        user.role = "client") := by
  have hc := signupRole_cases body.role
  have hna : signupRole body.role ≠ "admin" := by
    rcases hc.2.2.2 with h | h <;> rw [h] <;> decide
  by_cases h1 : trim (body.name.or (JSVal.str "")).toStr = "" ∨ normalizeEmail body.email = ""
      ∨ body.password.truthy = false
  · simp [signup, h1] at hOk
  by_cases h2 : emailMatches (normalizeEmail body.email) = true
  swap
  · simp [signup, h1, h2] at hOk
  by_cases h3 : (JSVal.str ((validatePassword body.password).getD "")).truthy = true
  · simp [signup, h1, h2, h3] at hOk
  cases hF : findOne (normalizeEmail body.email) with
  | failed => simp [signup, h1, h2, h3, hF] at hOk
  | found existing => simp [signup, h1, h2, h3, hF] at hOk
  | missing =>
    cases hH : hash body.password with
    | none => simp [signup, h1, h2, h3, hF, hH] at hOk
    | some passwordHash =>
      by_cases hC : (schemaValid
          { _id := newId, name := trim (body.name.or (JSVal.str "")).toStr,
            email := normalizeEmail body.email, passwordHash := passwordHash,
            role := signupRole body.role, status := some "active", loginAttempts := 0,
            lockUntil := none } &&
          insert
          { _id := newId, name := trim (body.name.or (JSVal.str "")).toStr,
            email := normalizeEmail body.email, passwordHash := passwordHash,
            role := signupRole body.role, status := some "active", loginAttempts := 0,
            lockUntil := none }) = true
      · simp only [signup, h1, h2, h3, hF, hH, hC] at hOk ⊢
        simp at hOk
        obtain ⟨_, _, hShown⟩ := hOk
        refine ⟨_, rfl, ?_, ?_, ?_, ?_, ?_, ?_⟩
        · rw [← hShown]
        · exact hc.2.2.2
        · exact hna
        · exact hc.1
        · exact hc.2.1
        · exact hc.2.2.1
      · simp only [signup, h1, h2, h3, hF, hH, hC] at hOk
        simp at hOk

/-- A signup that asks for the role `admin` succeeds with the role `client`. -/
theorem signup_role_is_client_or_model_witness :
    (signup sampleLib sampleHash emptyStore "u2" acceptInsert sampleSignupBody).response
      = SignupResponse.ok "access.u2" "refresh.u2"
          { id := "u2", name := "Ann", email := "ann@x.com", role := "client" } ∧
    sampleSignupBody.role = JSVal.str "admin" ∧
    ∃ user, (signup sampleLib sampleHash emptyStore "u2" acceptInsert sampleSignupBody).created
        = some user ∧
      ({ id := "u2", name := "Ann", email := "ann@x.com", role := "client" } : SignupUser).role
        = user.role ∧
      (user.role = "client" ∨ user.role = "model") ∧ user.role ≠ "admin" ∧
      (sampleSignupBody.role = JSVal.str "client" → user.role = "client") ∧
      (sampleSignupBody.role = JSVal.str "model" → user.role = "model") ∧
      (sampleSignupBody.role ≠ JSVal.str "client" → sampleSignupBody.role ≠ JSVal.str "model" →
        user.role = "client") :=
  ⟨by decide, by decide,
   signup_role_is_client_or_model sampleLib sampleHash emptyStore "u2" acceptInsert
     sampleSignupBody "access.u2" "refresh.u2"
     { id := "u2", name := "Ann", email := "ann@x.com", role := "client" } (by decide)⟩

/-- C18, the code at a failing input: a signup with the name `A`, a well-formed
e-mail that no account has and a password that meets the policy passes the
checks of the route, is rejected by the schema validator of `name` when the
document is created, and is answered 500 `Signup error` by the `catch`. No
account is created. -/
theorem signup_bad_name_is_500 :
    nameMatches "A" = false ∧
    emailMatches (normalizeEmail (JSVal.str "ann@x.com")) = true ∧
    validatePassword (JSVal.str "Aa1!aaaa") = none ∧
    emptyStore (normalizeEmail (JSVal.str "ann@x.com")) = Lookup.missing ∧
    signup sampleLib sampleHash emptyStore "u2" acceptInsert
        shortNameBody
      = { response := SignupResponse.message 500 "Signup error", created := none } ∧
    (signup sampleLib sampleHash emptyStore "u2" acceptInsert
        shortNameBody).response.status ≠ 400 := by
  decide

/-! ## Rotation, failing updates, the cookie, output hygiene and the status gates -/

/-- C21: for a refresh token that the refresh verifier accepts (valid and not
expired) at the instant `now` and at a later instant, of an account found in
the store with status `active`: `POST /refresh` at `now` answers 200 with an
access token and a refresh token both signed at `now`, the latter set as the
cookie `refresh`; the store after the request is the store before it; and
`POST /refresh` with the old token at the later instant, on that store, again
answers 200, with tokens signed at the later instant. -/
theorem refresh_rotation_keeps_old_token {σ : Type} (jwt : Jwt)
    (compare : String → String → Bool) (env : Env) (findById : σ → JSVal → Lookup)
    (store : σ) (token : String) (payload : Claims) (user : User) (now later : Nat)
    (hToken : token ≠ "")
    (hNow : verifyRefresh jwt env now token = some payload)
    (hLater : verifyRefresh jwt env later token = some payload)
    (hFound : findById store payload.id = Lookup.found user)
    (hActive : user.status = some "active") :
    (refreshOnStore (envLibrary jwt compare env now) (verifyRefresh jwt env now) findById store
        (some token)).1
      = RefreshResponse.ok (jwt.sign (accessClaims user) env.JWT_SECRET (accessTtl env) now)
          (jwt.sign (refreshClaims user) env.JWT_REFRESH_SECRET (refreshTtl env) now) ∧
    (refreshOnStore (envLibrary jwt compare env now) (verifyRefresh jwt env now) findById store
        (some token)).1.status = 200 ∧
    (setRefreshCookie env
        (jwt.sign (refreshClaims user) env.JWT_REFRESH_SECRET (refreshTtl env) now)).name
      = "refresh" ∧
    (refreshOnStore (envLibrary jwt compare env now) (verifyRefresh jwt env now) findById store
        (some token)).2 = store ∧
    (refreshOnStore (envLibrary jwt compare env later) (verifyRefresh jwt env later) findById
        (refreshOnStore (envLibrary jwt compare env now) (verifyRefresh jwt env now) findById
          store (some token)).2 (some token)).1
      = RefreshResponse.ok (jwt.sign (accessClaims user) env.JWT_SECRET (accessTtl env) later)
          (jwt.sign (refreshClaims user) env.JWT_REFRESH_SECRET (refreshTtl env) later) := by
  have hD : refreshDisabled user = false := by simp [refreshDisabled, hActive]
  simp [refreshOnStore, refresh, hToken, hNow, hLater, hFound, hD, RefreshResponse.status,
    issueAccessToken, issueRefreshToken, envLibrary, setRefreshCookie]

/-- The refresh token of `sampleUser` used at second 1 and again at second 5. -/
theorem refresh_rotation_keeps_old_token_witness :
    verifyRefresh toyJwt sampleEnv 1000 "s-refresh.u1.undefined.7d"
      = some (refreshClaims sampleUser) ∧
    (refreshOnStore (envLibrary toyJwt sampleCompare sampleEnv 1000)
        (verifyRefresh toyJwt sampleEnv 1000) storeById sampleUser
        (some "s-refresh.u1.undefined.7d")).1.status = 200 ∧
    (refreshOnStore (envLibrary toyJwt sampleCompare sampleEnv 5000)
        (verifyRefresh toyJwt sampleEnv 5000) storeById
        (refreshOnStore (envLibrary toyJwt sampleCompare sampleEnv 1000)
          (verifyRefresh toyJwt sampleEnv 1000) storeById sampleUser
          (some "s-refresh.u1.undefined.7d")).2 (some "s-refresh.u1.undefined.7d")).1
      = RefreshResponse.ok
          (toyJwt.sign (accessClaims sampleUser) sampleEnv.JWT_SECRET (accessTtl sampleEnv) 5000)
          (toyJwt.sign (refreshClaims sampleUser) sampleEnv.JWT_REFRESH_SECRET
            (refreshTtl sampleEnv) 5000) :=
  have h := refresh_rotation_keeps_old_token toyJwt sampleCompare sampleEnv storeById
    sampleUser "s-refresh.u1.undefined.7d" (refreshClaims sampleUser) sampleUser 1000 5000
    (by decide) (by decide) (by decide) (by decide) (by decide)
  ⟨by decide, h.2.1, h.2.2.2.2⟩

/-- On a store that performs every update, the handler always writes a
response, the one of `loginHandler`, and leaves the same stored document. -/
theorem loginHandlerOn_accepting (lib : Library) (found : Option User) (password : JSVal)
    (now : Nat) :
    loginHandlerOn lib (fun _ => true) found password now
      = (some (loginHandler lib found password now).1, (loginHandler lib found password now).2) := by
  cases found with
  | none => simp [loginHandlerOn, loginHandler]
  | some user =>
    by_cases hL : isLocked user now = true
    · simp [loginHandlerOn, loginHandler, hL]
    · by_cases hD : loginDisabled user = true
      · simp [loginHandlerOn, loginHandler, hL, hD]
      · by_cases hP : passwordOk lib user password = true
        · simp [loginHandlerOn, loginHandler, hL, hD, hP, resetLoginAttemptsOn, tryUpdateOne,
            resetLoginAttempts]
        · by_cases hE : lockExpired user now = true
          · simp [loginHandlerOn, loginHandler, hL, hD, hP, incLoginAttemptsOn, tryUpdateOne,
              incLoginAttempts, hE]
          · simp [loginHandlerOn, loginHandler, hL, hD, hP, incLoginAttemptsOn, tryUpdateOne,
              incLoginAttempts, hE]

/-- C22, the code at a failing input: `sampleUser` exists, is not locked and is
active, and the password `guess` is wrong. When the store performs the update
of `incLoginAttempts` the answer is 401 `Invalid credentials`; when the store
rejects it, the handler ends at the `await` and writes no response, and the
stored document is unchanged. -/
theorem failed_increment_leaves_login_unanswered :
    isLocked sampleUser 0 = false ∧ loginDisabled sampleUser = false ∧
    passwordOk sampleLib sampleUser (JSVal.str "guess") = false ∧
    (loginHandlerOn sampleLib acceptUpdates (some sampleUser) (JSVal.str "guess") 0).1
      = some (LoginResponse.error 401 "Invalid credentials") ∧
    (loginHandlerOn sampleLib rejectUpdates (some sampleUser) (JSVal.str "guess") 0).1
      = none ∧
    (loginHandlerOn sampleLib rejectUpdates (some sampleUser) (JSVal.str "guess") 0).2
      = some sampleUser := by
  decide

/-- C23: for every token and environment, `setRefreshCookie` sets the cookie
named `refresh`, holding the token, with `httpOnly` true; `secure` is true and
`sameSite` is `strict` exactly when `NODE_ENV` is `production`; `secure` is
false and `sameSite` is `lax` exactly in every other environment. -/
theorem setRefreshCookie_attributes (env : Env) (token : String) :
    (setRefreshCookie env token).name = "refresh" ∧
    (setRefreshCookie env token).value = token ∧
    (setRefreshCookie env token).httpOnly = true ∧
    (((setRefreshCookie env token).secure = true ∧
        (setRefreshCookie env token).sameSite = "strict")
      ↔ env.NODE_ENV = some "production") ∧
    (((setRefreshCookie env token).secure = false ∧
        (setRefreshCookie env token).sameSite = "lax")
      ↔ env.NODE_ENV ≠ some "production") := by
  by_cases h : env.NODE_ENV = some "production" <;> simp [setRefreshCookie, h]

/-- C24, the code at a failing input: the max-age of the refresh cookie is
604800000 ms (7 days) in every environment, whatever `JWT_REFRESH_TTL` is.
With `JWT_REFRESH_TTL = "1d"` the refresh token lives 86400000 ms, so the
cookie outlives the token it carries; the two agree for the default `7d`. -/
theorem cookie_outlives_one_day_token :
    (∀ (env : Env) (token : String), (setRefreshCookie env token).maxAge = 604800000) ∧
    refreshTtl dayEnv = "1d" ∧
    refreshTokenLifetime spanJwt dayEnv 0 = 86400000 ∧
    (setRefreshCookie dayEnv
        (issueRefreshToken (envLibrary spanJwt sampleCompare dayEnv 0) sampleUser)).maxAge
      ≠ refreshTokenLifetime spanJwt dayEnv 0 ∧
    refreshTokenLifetime spanJwt sampleEnv 0 = 604800000 := by
  refine ⟨fun env token => rfl, by decide, by decide, by decide, by decide⟩

/-- Reading a key of a filtered object: the value of the key when the filter
keeps it, nothing otherwise. -/
theorem get_filter (ret : PlainObject) (keep : String → Bool) (key : String) :
    PlainObject.get (ret.filter (fun entry => keep entry.1)) key
      = if keep key then PlainObject.get ret key else none := by
  induction ret with
  | nil => simp [PlainObject.get]
  | cons entry rest ih =>
    unfold PlainObject.get at ih ⊢
    by_cases hk : keep entry.1 = true
    · rw [List.filter_cons_of_pos (by simpa using hk)]
      by_cases he : entry.1 = key
      · have hkey : keep key = true := he ▸ hk
        simp [List.find?_cons, he, hkey]
      · simp only [List.find?_cons, he, decide_False]
        exact ih
    · rw [List.filter_cons_of_neg (by simpa using hk)]
      by_cases he : entry.1 = key
      · have hkey : ¬ keep key = true := he ▸ hk
        rw [ih]
        simp [hkey]
      · rw [ih]
        simp only [List.find?_cons, he, decide_False]

/-- The transform keeps, in their order, the entries whose key is none of the
three sensitive ones. -/
theorem hideSensitive_eq_filter (doc : User) (ret : PlainObject) :
    hideSensitive doc ret
      = ret.filter (fun entry => decide (entry.1 ≠ "passwordHash" ∧ entry.1 ≠ "loginAttempts"
          ∧ entry.1 ≠ "lockUntil")) := by
  simp [hideSensitive, PlainObject.delete, List.filter_filter, and_comm, and_assoc, and_left_comm]

/-- C25: the result of `hideSensitive` has none of the keys `passwordHash`,
`loginAttempts`, `lockUntil`; on every other key it has the value of the
input (it is the input without the entries of those three keys); and applying
the transform again changes nothing. -/
theorem hideSensitive_frame (doc : User) (ret : PlainObject) (key : String) :
    PlainObject.hasKey (hideSensitive doc ret) "passwordHash" = false ∧
    PlainObject.hasKey (hideSensitive doc ret) "loginAttempts" = false ∧
    PlainObject.hasKey (hideSensitive doc ret) "lockUntil" = false ∧
    PlainObject.get (hideSensitive doc ret) key
      = (if key = "passwordHash" ∨ key = "loginAttempts" ∨ key = "lockUntil" then none
         else PlainObject.get ret key) ∧
    hideSensitive doc ret
      = ret.filter (fun entry => decide (entry.1 ≠ "passwordHash" ∧ entry.1 ≠ "loginAttempts"
          ∧ entry.1 ≠ "lockUntil")) ∧
    hideSensitive doc (hideSensitive doc ret) = hideSensitive doc ret := by
  refine ⟨?_, ?_, ?_, ?_, hideSensitive_eq_filter doc ret, ?_⟩
  · rw [hideSensitive_eq_filter]; simp [PlainObject.hasKey]; tauto
  · rw [hideSensitive_eq_filter]; simp [PlainObject.hasKey]; tauto
  · rw [hideSensitive_eq_filter]; simp [PlainObject.hasKey]
  · rw [hideSensitive_eq_filter]
    have h := get_filter ret
      (fun k => decide (k ≠ "passwordHash" ∧ k ≠ "loginAttempts" ∧ k ≠ "lockUntil")) key
    rw [h]
    by_cases h1 : key = "passwordHash" <;> by_cases h2 : key = "loginAttempts" <;>
      by_cases h3 : key = "lockUntil" <;> simp [h1, h2, h3]
  · rw [hideSensitive_eq_filter, hideSensitive_eq_filter]
    simp [List.filter_filter]

/-- The transform on the plain object of an account. -/
theorem hideSensitive_sample :
    hideSensitive sampleUser sampleRet
      = [("_id", JSVal.str "u1"), ("email", JSVal.str "ann@x.com"),
         ("role", JSVal.str "client")] := by
  decide

/-- C26: for an account whose stored status is `active` or `disabled`, the
check of the auth middleware, the check of the login route and the check of
the refresh route each treat the account as disabled exactly when the status
is `disabled`. Outside that precondition they differ: with a loaded status
that is `null` or empty the middleware refuses and the two routes do not; with
`Active` the two routes refuse and the middleware does not. -/
theorem status_gates_agree (user : User)
    (hSchema : user.status = some "active" ∨ user.status = some "disabled") :
    (isDisabled user = true ↔ user.status = some "disabled") ∧
    (loginDisabled user = true ↔ user.status = some "disabled") ∧
    (refreshDisabled user = true ↔ user.status = some "disabled") ∧
    (isDisabled { sampleUser with status := none } = true ∧
      loginDisabled { sampleUser with status := none } = false ∧
      refreshDisabled { sampleUser with status := none } = false) ∧
    (isDisabled { sampleUser with status := some "" } = true ∧
      loginDisabled { sampleUser with status := some "" } = false ∧
      refreshDisabled { sampleUser with status := some "" } = false) ∧
    (isDisabled { sampleUser with status := some "Active" } = false ∧
      loginDisabled { sampleUser with status := some "Active" } = true ∧
      refreshDisabled { sampleUser with status := some "Active" } = true) := by
  refine ⟨?_, ?_, ?_, by decide, by decide, by decide⟩
  · rcases hSchema with h | h
    · have : isDisabled user = false := by rw [isDisabled, h]; decide
      simp [this, h]
    · have : isDisabled user = true := by rw [isDisabled, h]; decide
      simp [this, h]
  · rcases hSchema with h | h <;> simp [loginDisabled, h]
  · rcases hSchema with h | h <;> simp [refreshDisabled, h]

/-- The three checks on a disabled and on an active account. -/
theorem status_gates_agree_witness :
    isDisabled { sampleUser with status := some "disabled" } = true ∧
    loginDisabled { sampleUser with status := some "disabled" } = true ∧
    refreshDisabled { sampleUser with status := some "disabled" } = true ∧
    isDisabled sampleUser = false ∧ loginDisabled sampleUser = false ∧
    refreshDisabled sampleUser = false :=
  have hd := status_gates_agree { sampleUser with status := some "disabled" } (Or.inr rfl)
  ⟨hd.1.mpr rfl, hd.2.1.mpr rfl, hd.2.2.1.mpr rfl, by decide, by decide, by decide⟩

/-! ## The status gates on stored documents -/

/-- C2, as stated, fails: for a document stored without a `status` field the
query loads the schema default `active`, and the middleware calls `next`; the
claim has 403 for a missing status. -/
theorem auth_passes_without_status_field :
    sampleStoredUser.status = StoredStatus.absent ∧
    bearerToken sampleRequest = some "abc" ∧ sampleVerify "abc" = some sampleClaims ∧
    auth sampleVerify (findByIdIn (storeHolding sampleStoredUser)) sampleRequest
      = AuthResult.next { _id := "u1", id := "u1", role := JSVal.str "client" } ∧
    auth sampleVerify (findByIdIn (storeHolding sampleStoredUser)) sampleRequest
      ≠ AuthResult.respond 403 "Account disabled" := by
  decide

/-- C2, amended: for a request whose bearer token verifies and resolves to the
id of a document of the store, the middleware calls `next` exactly when the
status loaded from the store at that time, lower-cased, is `active`, and
answers 403 `Account disabled` otherwise. A document stored without a status
field is loaded with the schema default `active` and passes; a stored status
that is `null` or empty is answered 403. So when the store goes from an active
status (`before`) to another one (`after`) between two requests with the same
token, the first request proceeds and the second is answered 403. -/
theorem auth_status_gate_on_store (verify : String → Option Claims)
    (before after : String → StoredLookup) (req : Request) (token : String)
    (payload : Claims) (docBefore docAfter : StoredUser)
    (hT : bearerToken req = some token) (hV : verify token = some payload)
    (hS : subjectId payload ≠ "")
    (hB : before (subjectId payload) = StoredLookup.found docBefore)
    (hA : after (subjectId payload) = StoredLookup.found docAfter) :
    (auth verify (findByIdIn before) req =
        if toLowerCase (orStr (loadStatus docBefore.status) "") = "active"
        then AuthResult.next
          { _id := subjectId payload, id := subjectId payload,
            role := (claimedRole payload).nullish (JSVal.str docBefore.role) }
        else AuthResult.respond 403 "Account disabled") ∧
    ((∃ ident, auth verify (findByIdIn before) req = AuthResult.next ident)
        ↔ toLowerCase (orStr (loadStatus docBefore.status) "") = "active") ∧
    (docBefore.status = StoredStatus.absent →
      ∃ ident, auth verify (findByIdIn before) req = AuthResult.next ident) ∧
    (docBefore.status = StoredStatus.null ∨ docBefore.status = StoredStatus.text "" →
      auth verify (findByIdIn before) req = AuthResult.respond 403 "Account disabled") ∧
    (toLowerCase (orStr (loadStatus docBefore.status) "") = "active" →
      toLowerCase (orStr (loadStatus docAfter.status) "") ≠ "active" →
      (∃ ident, auth verify (findByIdIn before) req = AuthResult.next ident) ∧
      auth verify (findByIdIn after) req = AuthResult.respond 403 "Account disabled") := by
  have hB1 : findByIdIn before (subjectId payload) = Lookup.found docBefore.load := by
    simp [findByIdIn, hB]
  have hA1 : findByIdIn after (subjectId payload) = Lookup.found docAfter.load := by
    simp [findByIdIn, hA]
  have h := auth_status_gate verify (findByIdIn before) (findByIdIn after) req token payload
    docBefore.load docAfter.load hT hV hS hB1 hA1
  have hEq := h.1
  simp only [StoredUser.load] at hEq
  refine ⟨hEq, h.2.1, ?_, ?_, h.2.2⟩
  · intro hAbsent
    apply h.2.1.mpr
    simp only [StoredUser.load, hAbsent, loadStatus]
    decide
  · intro hEmpty
    rw [hEq]
    have hNot : ¬ toLowerCase (orStr (loadStatus docBefore.status) "") = "active" := by
      rcases hEmpty with h0 | h0 <;> rw [h0] <;> decide
    rw [if_neg hNot]

/-- The status gate on a store: the token `abc` of account `u1`, first with the
document stored without a status field, then with the status `disabled`. -/
theorem auth_status_gate_on_store_witness :
    bearerToken sampleRequest = some "abc" ∧
    sampleVerify "abc" = some sampleClaims ∧
    subjectId sampleClaims ≠ "" ∧
    (∃ ident, auth sampleVerify (findByIdIn (storeHolding sampleStoredUser)) sampleRequest
      = AuthResult.next ident) ∧
    auth sampleVerify
        (findByIdIn (storeHolding { sampleStoredUser with status := StoredStatus.text "disabled" }))
        sampleRequest
      = AuthResult.respond 403 "Account disabled" :=
  ⟨by decide, by decide, by decide,
   (auth_status_gate_on_store sampleVerify (storeHolding sampleStoredUser)
      (storeHolding { sampleStoredUser with status := StoredStatus.text "disabled" })
      sampleRequest "abc" sampleClaims sampleStoredUser
      { sampleStoredUser with status := StoredStatus.text "disabled" }
      (by decide) (by decide) (by decide) rfl rfl).2.2.2.2 (by decide) (by decide)⟩

/-- A status the schema admits is loaded as `active` or as `disabled`. -/
theorem loadStatus_inSchema (status : StoredStatus) (h : status.inSchema = true) :
    loadStatus status = some "active" ∨ loadStatus status = some "disabled" := by
  cases status with
  | absent => exact Or.inl rfl
  | null => simp [StoredStatus.inSchema] at h
  | text value =>
    simp only [StoredStatus.inSchema, decide_eq_true_eq] at h
    rcases h with h | h <;> simp [loadStatus, h]

/-- C3: for every login request on a store whose document under the normalized
e-mail, if any, has a status the schema admits, the answer of `POST /login` is
401 `Invalid credentials` when no account has the normalized e-mail; else 423
when the account is locked, whatever the password; else 403 when the status of
the account is not `active`; else 401 `Invalid credentials` when the password
does not match the stored hash; otherwise 200 with the access token and `user`
(id, name, email, role, status). Each answer is given in exactly that case,
for every lower-casing of the e-mail. -/
theorem login_outcome_in_schema (lower : String → String) (lib : Library)
    (findOne : String → Option StoredUser) (body : LoginBody) (now : Nat)
    (hSchema : ((findOne (normalizeEmailVia lower body.email)).all
      (fun doc => doc.status.inSchema)) = true) :
    ((loginOnStore lower lib findOne body now).1 = LoginResponse.error 401 "Invalid credentials"
      ↔ findOne (normalizeEmailVia lower body.email) = none
        ∨ ∃ doc, findOne (normalizeEmailVia lower body.email) = some doc
            ∧ isLocked doc.load now = false ∧ doc.load.status = some "active"
            ∧ passwordOk lib doc.load body.password = false) ∧
    ((loginOnStore lower lib findOne body now).1
        = LoginResponse.error 423 "Account locked. Try again later."
      ↔ ∃ doc, findOne (normalizeEmailVia lower body.email) = some doc
          ∧ isLocked doc.load now = true) ∧
    ((loginOnStore lower lib findOne body now).1 = LoginResponse.message 403 "Account disabled"
      ↔ ∃ doc, findOne (normalizeEmailVia lower body.email) = some doc
          ∧ isLocked doc.load now = false ∧ doc.load.status ≠ some "active") ∧
    (∀ token cookie shown,
      (loginOnStore lower lib findOne body now).1 = LoginResponse.ok token cookie shown
      ↔ ∃ doc, findOne (normalizeEmailVia lower body.email) = some doc
          ∧ isLocked doc.load now = false ∧ doc.load.status = some "active"
          ∧ passwordOk lib doc.load body.password = true
          ∧ token = issueAccessToken lib doc.load ∧ cookie = issueRefreshToken lib doc.load
          ∧ shown = { id := doc._id, name := doc.name, email := doc.email, role := doc.role,
                      status := some "active" }) := by
  cases hF : findOne (normalizeEmailVia lower body.email) with
  | none => simp [loginOnStore, loginHandler, hF]
  | some doc =>
    have hIn : doc.status.inSchema = true := by simpa [hF] using hSchema
    have hLoad : doc.load.status = loadStatus doc.status := rfl
    by_cases hL : isLocked doc.load now = true
    · simp [loginOnStore, loginHandler, hF, hL]
    · rcases loadStatus_inSchema doc.status hIn with hs | hs
      · have hSt : doc.load.status = some "active" := hLoad.trans hs
        have hD : loginDisabled doc.load = false := by simp [loginDisabled, hSt]
        by_cases hP : passwordOk lib doc.load body.password = true
        · simp [loginOnStore, loginHandler, hF, hL, hD, hP, hSt]
          intro token cookie shown
          constructor
          · rintro ⟨h1, h2, h3⟩
            refine ⟨h1.symm, h2.symm, ?_⟩
            rw [← h3]
            simp [StoredUser.load, hs]
          · rintro ⟨h1, h2, h3⟩
            refine ⟨h1.symm, h2.symm, ?_⟩
            rw [h3]
            simp [StoredUser.load, hs]
        · simp [loginOnStore, loginHandler, hF, hL, hD, hP, hSt]
      · have hSt : doc.load.status = some "disabled" := hLoad.trans hs
        have hD : loginDisabled doc.load = true := by simp [loginDisabled, hSt]
        simp [loginOnStore, loginHandler, hF, hL, hD, hSt]

/-- The login route on `u1` stored with the status `disabled`: the right
password is answered 403. -/
theorem login_outcome_in_schema_witness :
    (loginOnStore toLowerCase sampleLib
        (storeByEmail { sampleStoredUser with status := StoredStatus.text "disabled" })
        sampleBody 0).1 = LoginResponse.message 403 "Account disabled" ∧
    ∃ doc, storeByEmail { sampleStoredUser with status := StoredStatus.text "disabled" }
          (normalizeEmailVia toLowerCase sampleBody.email) = some doc
        ∧ isLocked doc.load 0 = false ∧ doc.load.status ≠ some "active" :=
  have h := login_outcome_in_schema toLowerCase sampleLib
    (storeByEmail { sampleStoredUser with status := StoredStatus.text "disabled" })
    sampleBody 0 (by decide)
  ⟨by decide, h.2.2.1.mp (by decide)⟩

end AgencyHub
